import Mathlib

/-!
Shallow embedding of the GPT validation and repair core of
`src/firmware/lib/cgptlib/cgptlib_internal.c` (the cgpt library used by the
seismograph disk utility), together with proofs about its claims.

Headers generally hold machine integers; we model `uint32_t`/`uint64_t`
values as `Nat` with explicit `% 2^32` / `% 2^64` where the C arithmetic can
wrap.  Byte buffers are `List Nat` with each element intended `< 256`.
The 512-byte header sectors are modelled as a `GptHeader` record (the 92-byte
packed struct) plus the trailing `padding` bytes of the sector; the 16384-byte
entry buffers are raw byte lists, parsed on demand exactly as the C code
reinterprets the buffer as a `GptEntry` array.
-/

set_option maxRecDepth 2000000
set_option maxHeartbeats 2000000

namespace Cgpt

/-! ## Constants

`GPT_SUCCESS` and the error codes, the mask values, and the layout constants
come from `gpt.h` / `cgptlib.h` / `cgptlib_internal.h`, which are not part of
the provided sources; their values are modelled from the spec (§6 lists the
error-code enumeration order starting at `SUCCESS=0`, the mask members
`PRIMARY=1, SECONDARY=2, BOTH=3, NONE=0`, and the layout constants). -/

abbrev GPT_SUCCESS : Nat := 0
abbrev GPT_ERROR_NO_VALID_KERNEL : Nat := 1
abbrev GPT_ERROR_INVALID_HEADERS : Nat := 2
abbrev GPT_ERROR_INVALID_ENTRIES : Nat := 3
abbrev GPT_ERROR_INVALID_SECTOR_SIZE : Nat := 4
abbrev GPT_ERROR_INVALID_SECTOR_NUMBER : Nat := 5
abbrev GPT_ERROR_INVALID_UPDATE_TYPE : Nat := 6
abbrev GPT_ERROR_CRC_CORRUPTED : Nat := 7
abbrev GPT_ERROR_OUT_OF_REGION : Nat := 8
abbrev GPT_ERROR_START_LBA_OVERLAP : Nat := 9
abbrev GPT_ERROR_END_LBA_OVERLAP : Nat := 10
abbrev GPT_ERROR_DUP_GUID : Nat := 11
abbrev GPT_ERROR_INVALID_FLASH_GEOMETRY : Nat := 12
abbrev GPT_ERROR_NO_SUCH_ENTRY : Nat := 13

abbrev MASK_NONE : Nat := 0
abbrev MASK_PRIMARY : Nat := 1
abbrev MASK_SECONDARY : Nat := 2
abbrev MASK_BOTH : Nat := 3

abbrev GPT_MODIFIED_HEADER1 : Nat := 1
abbrev GPT_MODIFIED_HEADER2 : Nat := 2
abbrev GPT_MODIFIED_ENTRIES1 : Nat := 4
abbrev GPT_MODIFIED_ENTRIES2 : Nat := 8

abbrev GPT_ENTRIES_SECTORS : Nat := 32
abbrev TOTAL_ENTRIES_SIZE : Nat := 16384
abbrev MIN_SIZE_OF_HEADER : Nat := 92
abbrev MAX_SIZE_OF_HEADER : Nat := 512
abbrev GPT_HEADER_REVISION : Nat := 0x00010000

/-- Modelled from the spec: `MIN_NUMBER_OF_ENTRIES = MAX_NUMBER_OF_ENTRIES =
128 in practice` (§6); `cgptlib_internal.h` is not among the sources.  Since
`CheckHeader` also forces `size_of_entry = 128` and
`number_of_entries * size_of_entry = 16384`, any bounds containing 128 give
the same acceptance behaviour. -/
abbrev MIN_NUMBER_OF_ENTRIES : Nat := 128

/-- Modelled from the spec: see `MIN_NUMBER_OF_ENTRIES`. -/
abbrev MAX_NUMBER_OF_ENTRIES : Nat := 128

/-- Modelled from the spec: the byte literal `"EFI PART"` of `gpt.h`. -/
def GPT_HEADER_SIGNATURE : List Nat := [0x45, 0x46, 0x49, 0x20, 0x50, 0x41, 0x52, 0x54]

/-- Modelled from the spec: the legacy `"CHROMEOS"` signature variant of `gpt.h`. -/
def GPT_HEADER_SIGNATURE2 : List Nat := [0x43, 0x48, 0x52, 0x4F, 0x4D, 0x45, 0x4F, 0x53]

/-! ## Machine arithmetic helpers -/

/-- `a - b` as 64-bit unsigned C subtraction (wraparound). -/
def sub64 (a b : Nat) : Nat := (a + (2 ^ 64 - b % 2 ^ 64)) % 2 ^ 64

/-- `a + b` as 64-bit unsigned C addition (wraparound). -/
def add64 (a b : Nat) : Nat := (a + b) % 2 ^ 64

/-- Little-endian encoding of `n` into `w` bytes (truncating above `2^(8w)`),
matching the in-memory layout of the packed C structs. -/
def leBytes : Nat → Nat → List Nat
  | 0, _ => []
  | w + 1, n => n % 256 :: leBytes w (n / 256)

/-- Little-endian decoding of a byte list into a `Nat`. -/
def bytesToNatLE (l : List Nat) : Nat :=
  l.foldr (fun b acc => b % 256 + 256 * acc) 0

/-! ## CRC32 primitive

Modelled from the spec (§4.1): the `Crc32` function lives in `crc32.c`,
which is not among the provided sources.  IEEE 802.3 CRC32: reflected
polynomial `0xEDB88320`, initial value `0xFFFFFFFF`, final XOR `0xFFFFFFFF`. -/

/-- One bit step of the reflected CRC32. -/
def crcRound (c : Nat) : Nat :=
  if c % 2 = 1 then (c / 2) ^^^ 0xEDB88320 else c / 2

/-- Eight bit steps. -/
def crcRound8 (c : Nat) : Nat :=
  crcRound (crcRound (crcRound (crcRound (crcRound (crcRound (crcRound (crcRound c)))))))

/-- CRC32 over a byte list.  `Crc32(buffer, len)` in the C code corresponds
to `crc32 (bytes.take len)`. -/
def crc32 (bytes : List Nat) : Nat :=
  0xFFFFFFFF ^^^ bytes.foldl (fun c b => crcRound8 (c ^^^ b % 256)) 0xFFFFFFFF

/-! ## Data model -/

/-- The 92-byte packed `GptHeader` struct of `gpt.h`, plus the `padding`
bytes that fill the rest of the header's 512-byte sector buffer (the C code
CRCs `h->size` bytes starting at the struct, which can reach past the 92
struct bytes into the sector padding). -/
structure GptHeader where
  signature : List Nat
  revision : Nat
  size : Nat
  header_crc32 : Nat
  reserved_zero : Nat
  my_lba : Nat
  alternate_lba : Nat
  first_usable_lba : Nat
  last_usable_lba : Nat
  disk_uuid : List Nat
  entries_lba : Nat
  number_of_entries : Nat
  size_of_entry : Nat
  entries_crc32 : Nat
  padding : List Nat
  deriving Repr, DecidableEq

/-- The 128-byte `GptEntry` view obtained by reinterpreting 128 bytes of an
entry buffer, as the C code does with its `GptEntry *` casts. -/
structure GptEntry where
  type : List Nat
  unique : List Nat
  starting_lba : Nat
  ending_lba : Nat
  attributes : Nat
  name : List Nat
  deriving Repr, DecidableEq

/-- The `GptData` working set (§3).  Header sectors are structured records;
entry buffers are raw 16384-byte lists. -/
structure GptData where
  sector_bytes : Nat
  drive_sectors : Nat
  primary_header : GptHeader
  secondary_header : GptHeader
  primary_entries : List Nat
  secondary_entries : List Nat
  valid_headers : Nat
  valid_entries : Nat
  modified : Nat
  current_kernel : Nat
  deriving Repr, DecidableEq

/-- Byte image of the packed 92-byte struct followed by the sector padding,
little-endian throughout, exactly the memory the C code CRCs. -/
def serializeHeader (h : GptHeader) : List Nat :=
  h.signature.take 8 ++ leBytes 4 h.revision ++ leBytes 4 h.size ++
  leBytes 4 h.header_crc32 ++ leBytes 4 h.reserved_zero ++
  leBytes 8 h.my_lba ++ leBytes 8 h.alternate_lba ++
  leBytes 8 h.first_usable_lba ++ leBytes 8 h.last_usable_lba ++
  h.disk_uuid.take 16 ++ leBytes 8 h.entries_lba ++
  leBytes 4 h.number_of_entries ++ leBytes 4 h.size_of_entry ++
  leBytes 4 h.entries_crc32 ++ h.padding

/-! ## Core functions translated from `cgptlib_internal.c` -/

/-- `CheckParameters` (cgptlib_internal.c:15). -/
def CheckParameters (gpt : GptData) : Nat :=
  if gpt.sector_bytes ≠ 512 then GPT_ERROR_INVALID_SECTOR_SIZE
  else if gpt.drive_sectors < 1 + 2 * (1 + GPT_ENTRIES_SECTORS) then
    GPT_ERROR_INVALID_SECTOR_NUMBER
  else GPT_SUCCESS

/-- `HeaderCrc` (cgptlib_internal.c:32): CRC over the first `h.size` bytes of
the header buffer with the `header_crc32` field temporarily zeroed (the C code
zeroes the field, CRCs, and restores it; functionally that is a CRC of the
image with the field zero). -/
def HeaderCrc (h : GptHeader) : Nat :=
  crc32 ((serializeHeader { h with header_crc32 := 0 }).take h.size)

/-- `CheckHeader` (cgptlib_internal.c:45).  Returns 0 for a valid header and
1 otherwise, mirroring the C cascade of early rejects.  The null-pointer
check has no counterpart for a structured value. -/
def CheckHeader (h : GptHeader) (is_secondary : Bool) (drive_sectors : Nat) : Nat :=
  if h.signature.take 8 ≠ GPT_HEADER_SIGNATURE ∧ h.signature.take 8 ≠ GPT_HEADER_SIGNATURE2 then 1
  else if h.revision ≠ GPT_HEADER_REVISION then 1
  else if h.size < MIN_SIZE_OF_HEADER ∨ h.size > MAX_SIZE_OF_HEADER then 1
  else if HeaderCrc h ≠ h.header_crc32 then 1
  else if h.reserved_zero ≠ 0 then 1
  else if h.size_of_entry ≠ 128 then 1
  else if h.number_of_entries < MIN_NUMBER_OF_ENTRIES ∨
          h.number_of_entries > MAX_NUMBER_OF_ENTRIES ∨
          h.number_of_entries * h.size_of_entry % 2 ^ 32 ≠ TOTAL_ENTRIES_SIZE then 1
  else if is_secondary then
    if h.my_lba ≠ sub64 drive_sectors 1 then 1
    else if h.entries_lba ≠ sub64 h.my_lba GPT_ENTRIES_SECTORS then 1
    else if h.first_usable_lba < 2 + GPT_ENTRIES_SECTORS then 1
    else if h.last_usable_lba ≥ sub64 (sub64 drive_sectors 1) GPT_ENTRIES_SECTORS then 1
    else if h.first_usable_lba > h.last_usable_lba then 1
    else 0
  else
    if h.my_lba ≠ 1 then 1
    else if h.entries_lba ≠ add64 h.my_lba 1 then 1
    else if h.first_usable_lba < 2 + GPT_ENTRIES_SECTORS then 1
    else if h.last_usable_lba ≥ sub64 (sub64 drive_sectors 1) GPT_ENTRIES_SECTORS then 1
    else if h.first_usable_lba > h.last_usable_lba then 1
    else 0

/-- `IsUnusedEntry` (cgptlib_internal.c:118): the 16 type-GUID bytes are zero.
Truth-valued; the C function returns nonzero for unused. -/
def IsUnusedEntry (e : GptEntry) : Bool :=
  e.type = List.replicate 16 0

/-- Reinterpret 128 bytes as a `GptEntry` (the packed layout of `gpt.h`). -/
def parseEntry (b : List Nat) : GptEntry :=
  { type := b.take 16
    unique := (b.drop 16).take 16
    starting_lba := bytesToNatLE ((b.drop 32).take 8)
    ending_lba := bytesToNatLE ((b.drop 40).take 8)
    attributes := bytesToNatLE ((b.drop 48).take 8)
    name := (b.drop 56).take 72 }

/-- Chunk an entry buffer into 128-byte entries, fuel-guarded. -/
def parseEntriesAux : Nat → List Nat → List GptEntry
  | _, [] => []
  | 0, _ :: _ => []
  | fuel + 1, x :: xs => parseEntry ((x :: xs).take 128) :: parseEntriesAux fuel ((x :: xs).drop 128)

/-- Reinterpret an entry buffer as the array of 128-byte entries the C code
indexes into.  The C buffers are exactly 16384 bytes (128 entries); the
constant fuel covers any buffer up to 1024 entries. -/
def parseEntries (b : List Nat) : List GptEntry :=
  parseEntriesAux 1024 b

/-- First nonzero result of `f` over `l`, scanning left to right; 0 when every
element yields 0.  Mirrors a C loop that returns the first error it finds. -/
def firstNonzero (l : List α) (f : α → Nat) : Nat :=
  l.foldl (fun acc x => if acc ≠ 0 then acc else f x) 0

/-- The body of the inner scan of `CheckEntries` for the ordered pair
`(entry, e2)` at indices `(i, i2)`: start-overlap, then end-overlap, then
duplicate GUID, skipping `i2 = i` and unused slots. -/
def checkEntryPair (e : GptEntry) (i : Nat) (p : Nat × GptEntry) : Nat :=
  if p.1 = i ∨ IsUnusedEntry p.2 then 0
  else if e.starting_lba ≥ p.2.starting_lba ∧ e.starting_lba ≤ p.2.ending_lba then
    GPT_ERROR_START_LBA_OVERLAP
  else if e.ending_lba ≥ p.2.starting_lba ∧ e.ending_lba ≤ p.2.ending_lba then
    GPT_ERROR_END_LBA_OVERLAP
  else if e.unique = p.2.unique then GPT_ERROR_DUP_GUID
  else 0

/-- The body of the outer scan of `CheckEntries` for `entry` at index `i`:
skip unused slots, check the region bounds, then scan all other entries. -/
def checkOneEntry (es : List GptEntry) (h : GptHeader) (p : Nat × GptEntry) : Nat :=
  if IsUnusedEntry p.2 then 0
  else if p.2.starting_lba < h.first_usable_lba ∨ p.2.ending_lba > h.last_usable_lba ∨
          p.2.ending_lba < p.2.starting_lba then GPT_ERROR_OUT_OF_REGION
  else firstNonzero es.enum (checkEntryPair p.2 p.1)

/-- `CheckEntries` (cgptlib_internal.c:130).  CRC over
`size_of_entry * number_of_entries` bytes (32-bit product, as in C), then the
region / overlap / duplicate-GUID scan over the first `number_of_entries`
entries of the buffer. -/
def CheckEntries (entries : List Nat) (h : GptHeader) : Nat :=
  if crc32 (entries.take (h.size_of_entry * h.number_of_entries % 2 ^ 32)) ≠ h.entries_crc32 then
    GPT_ERROR_CRC_CORRUPTED
  else
    let es := (parseEntries entries).take h.number_of_entries
    firstNonzero es.enum (checkOneEntry es h)

/-- `HeaderFieldsSame` (cgptlib_internal.c:180): 0 when the ten fields that
must agree between the two copies all agree (everything except `my_lba`,
`alternate_lba`, `entries_lba`, `header_crc32`). -/
def HeaderFieldsSame (h1 h2 : GptHeader) : Nat :=
  if h1.signature.take 8 ≠ h2.signature.take 8 then 1
  else if h1.revision ≠ h2.revision then 1
  else if h1.size ≠ h2.size then 1
  else if h1.reserved_zero ≠ h2.reserved_zero then 1
  else if h1.first_usable_lba ≠ h2.first_usable_lba then 1
  else if h1.last_usable_lba ≠ h2.last_usable_lba then 1
  else if h1.disk_uuid.take 16 ≠ h2.disk_uuid.take 16 then 1
  else if h1.number_of_entries ≠ h2.number_of_entries then 1
  else if h1.size_of_entry ≠ h2.size_of_entry then 1
  else if h1.entries_crc32 ≠ h2.entries_crc32 then 1
  else 0

/-- The first step of `GptSanityCheck`: both validity masks are cleared
before anything is examined. -/
def sanityReset (gpt : GptData) : GptData :=
  { gpt with valid_headers := MASK_NONE, valid_entries := MASK_NONE }

/-- The header-validity mask built by `GptSanityCheck` (lines 223–231 of the
C file): `MASK_PRIMARY` and `MASK_SECONDARY` bits for the headers that pass
`CheckHeader`. -/
def sanityHeaderMask (g : GptData) : Nat :=
  (if CheckHeader g.primary_header false g.drive_sectors = 0 then MASK_PRIMARY else 0) +
  (if CheckHeader g.secondary_header true g.drive_sectors = 0 then MASK_SECONDARY else 0)

/-- The `goodhdr` choice of `GptSanityCheck`: the primary header if it is
valid, otherwise the secondary. -/
def sanityGoodHdr (g : GptData) : GptHeader :=
  if CheckHeader g.primary_header false g.drive_sectors = 0 then g.primary_header
  else g.secondary_header

/-- The entry-validity mask of `GptSanityCheck` for a given reference header:
bits for the entry tables that pass `CheckEntries` against it. -/
def sanityEntriesMask (g : GptData) (h : GptHeader) : Nat :=
  (if CheckEntries g.primary_entries h = 0 then MASK_PRIMARY else 0) +
  (if CheckEntries g.secondary_entries h = 0 then MASK_SECONDARY else 0)

/-- The cross-retry trigger of `GptSanityCheck` (line 252): both headers
valid but neither entry table passed against `goodhdr`. -/
def sanityCross (g : GptData) : Prop :=
  sanityHeaderMask g = MASK_BOTH ∧ sanityEntriesMask g (sanityGoodHdr g) = MASK_NONE

instance (g : GptData) : Decidable (sanityCross g) := by
  unfold sanityCross; infer_instance

/-- The entry-validity mask after the cross-retry (lines 243–256): the bits
from `goodhdr`, or, when the cross-retry fires, the bits re-computed against
the secondary header. -/
def sanityVe2 (g : GptData) : Nat :=
  if sanityCross g then sanityEntriesMask g g.secondary_header
  else sanityEntriesMask g (sanityGoodHdr g)

/-- The header-validity mask after the cross-retry (lines 257–265):
`valid_headers &= ~MASK_PRIMARY` — on these 2-bit masks `&&& MASK_SECONDARY`
— when the cross-retry found valid entries under the secondary header. -/
def sanityVh2 (g : GptData) : Nat :=
  if sanityCross g ∧ sanityVe2 g ≠ MASK_NONE then sanityHeaderMask g &&& MASK_SECONDARY
  else sanityHeaderMask g

/-- The final header-validity mask (lines 275–277): `&= ~MASK_SECONDARY` —
on these masks `&&& MASK_PRIMARY` — when both headers are valid but their
compared fields differ. -/
def sanityVh3 (g : GptData) : Nat :=
  if sanityVh2 g = MASK_BOTH ∧ HeaderFieldsSame g.primary_header g.secondary_header ≠ 0
  then sanityVh2 g &&& MASK_PRIMARY else sanityVh2 g

/-- `GptSanityCheck` (cgptlib_internal.c:206).  Returns the error code and the
updated `GptData` (the C function mutates only `valid_headers` and
`valid_entries`); written compositionally through the `sanity*` helpers,
which mirror the C locals `retval`, `goodhdr` and the running masks. -/
def GptSanityCheck (gpt : GptData) : Nat × GptData :=
  if CheckParameters (sanityReset gpt) ≠ GPT_SUCCESS then
    (CheckParameters (sanityReset gpt), sanityReset gpt)
  else if sanityHeaderMask (sanityReset gpt) = MASK_NONE then
    (GPT_ERROR_INVALID_HEADERS,
      { sanityReset gpt with valid_headers := sanityHeaderMask (sanityReset gpt) })
  else if sanityVe2 (sanityReset gpt) = MASK_NONE then
    (GPT_ERROR_INVALID_ENTRIES,
      { sanityReset gpt with valid_headers := sanityVh2 (sanityReset gpt),
                             valid_entries := sanityVe2 (sanityReset gpt) })
  else
    (GPT_SUCCESS,
      { sanityReset gpt with valid_headers := sanityVh3 (sanityReset gpt),
                             valid_entries := sanityVe2 (sanityReset gpt) })

/-- `header->header_crc32 = HeaderCrc(header)` (the final step of every header
rewrite in the C code). -/
def setHeaderCrc (h : GptHeader) : GptHeader :=
  { h with header_crc32 := HeaderCrc h }

/-- `Memcpy(header2, header1, sizeof(GptHeader))`: the 92 struct bytes come
from the source; the destination sector's padding bytes are untouched. -/
def copyHeaderOver (src dst : GptHeader) : GptHeader :=
  { src with padding := dst.padding }

/-- `Memcpy(dst, src, n)` on entry buffers: the first `n` bytes from the
source, the rest of the destination unchanged. -/
def memcpyBytes (dst src : List Nat) (n : Nat) : List Nat :=
  src.take n ++ dst.drop n

/-- The state after `GptRecomputeSize` rewrites the primary header's
geometry (cgptlib_internal.c:300-304): `alternate_lba` and `last_usable_lba`
updated from the drive size, `header_crc32` recomputed. -/
def recomputeRewrittenPrimary (g : GptData) : GptData :=
  { g with primary_header := (setHeaderCrc
      { g.primary_header with
        alternate_lba := sub64 g.drive_sectors 1,
        last_usable_lba := sub64 (sub64 (sub64 g.drive_sectors 1) GPT_ENTRIES_SECTORS) 1 }) }

/-- The state after `GptRecomputeSize` rewrites the secondary header's
geometry (cgptlib_internal.c:313-318): `my_lba`, `entries_lba` and
`last_usable_lba` updated from the drive size, `header_crc32` recomputed. -/
def recomputeRewrittenSecondary (g : GptData) : GptData :=
  { g with secondary_header := (setHeaderCrc
      { g.secondary_header with
        my_lba := sub64 g.drive_sectors 1,
        entries_lba := sub64 (sub64 g.drive_sectors 1) GPT_ENTRIES_SECTORS,
        last_usable_lba := sub64 (sub64 (sub64 g.drive_sectors 1) GPT_ENTRIES_SECTORS) 1 }) }

/-- The tail of `GptRecomputeSize` (cgptlib_internal.c:326) after a header was
rewritten: rerun the sanity check; roll the rewritten header back from the
backup on failure (in C a `Memcpy` of the 92 struct bytes; the rewrite never
touched the sector padding, so restoring the record is byte-identical) and
rerun the sanity check once more; on success flag the modified sectors.
`was_valid` says which header was rewritten. -/
def recomputeCheck (g : GptData) (backup : GptHeader) (was_valid : Nat) : Nat × GptData :=
  if (GptSanityCheck g).1 ≠ GPT_SUCCESS ∨ (GptSanityCheck g).2.valid_headers ≠ was_valid then
    (GPT_ERROR_INVALID_HEADERS,
      (GptSanityCheck
        (if was_valid = MASK_PRIMARY then
          { (GptSanityCheck g).2 with primary_header := backup }
        else
          { (GptSanityCheck g).2 with secondary_header := backup })).2)
  else
    (GPT_SUCCESS,
      { (GptSanityCheck g).2 with
        modified := (GptSanityCheck g).2.modified |||
          (GPT_MODIFIED_HEADER2 ||| GPT_MODIFIED_ENTRIES2) |||
          (if was_valid = MASK_PRIMARY then GPT_MODIFIED_HEADER1 else 0) })

/-- `GptRecomputeSize` (cgptlib_internal.c:282). -/
def GptRecomputeSize (g : GptData) : Nat × GptData :=
  if g.valid_headers &&& MASK_PRIMARY ≠ 0 then
    if g.primary_header.alternate_lba = sub64 g.drive_sectors 1 ∧
       g.primary_header.last_usable_lba =
         sub64 (sub64 (sub64 g.drive_sectors 1) GPT_ENTRIES_SECTORS) 1 then
      (GPT_SUCCESS, g)
    else recomputeCheck (recomputeRewrittenPrimary g) g.primary_header MASK_PRIMARY
  else if g.valid_headers &&& MASK_SECONDARY ≠ 0 then
    if g.secondary_header.my_lba = sub64 g.drive_sectors 1 ∧
       g.secondary_header.entries_lba = sub64 (sub64 g.drive_sectors 1) GPT_ENTRIES_SECTORS ∧
       g.secondary_header.last_usable_lba =
         sub64 (sub64 (sub64 g.drive_sectors 1) GPT_ENTRIES_SECTORS) 1 then
      (GPT_SUCCESS, g)
    else recomputeCheck (recomputeRewrittenSecondary g) g.secondary_header MASK_SECONDARY
  else (GPT_ERROR_INVALID_HEADERS, g)

/-- The secondary header rebuilt from a valid primary
(cgptlib_internal.c:358-364): copy of the primary with the three
role-specific LBAs overwritten and the CRC recomputed. -/
def rebuildSecondaryHeader (g : GptData) : GptHeader :=
  setHeaderCrc
    { copyHeaderOver g.primary_header g.secondary_header with
      my_lba := sub64 g.drive_sectors 1,
      alternate_lba := 1,
      entries_lba := sub64 (sub64 g.drive_sectors 1) GPT_ENTRIES_SECTORS }

/-- The primary header rebuilt from a valid secondary
(cgptlib_internal.c:367-373). -/
def rebuildPrimaryHeader (g : GptData) : GptHeader :=
  setHeaderCrc
    { copyHeaderOver g.secondary_header g.primary_header with
      my_lba := 1,
      alternate_lba := sub64 g.drive_sectors 1,
      entries_lba := add64 1 1 }

/-- The header-repair step of `GptRepair` (cgptlib_internal.c:357-375). -/
def repairHeaders (g : GptData) : GptData :=
  if g.valid_headers = MASK_PRIMARY then
    { g with secondary_header := rebuildSecondaryHeader g,
             modified := g.modified ||| GPT_MODIFIED_HEADER2 }
  else if g.valid_headers = MASK_SECONDARY then
    { g with primary_header := rebuildPrimaryHeader g,
             modified := g.modified ||| GPT_MODIFIED_HEADER1 }
  else g

/-- `entries_size` of `GptRepair` (cgptlib_internal.c:379): read from the
primary header after the header repair, 32-bit product as in C. -/
def entriesSize (g : GptData) : Nat :=
  g.primary_header.size_of_entry * g.primary_header.number_of_entries % 2 ^ 32

/-- The entries-repair step of `GptRepair` (cgptlib_internal.c:378-389). -/
def repairEntries (g : GptData) : GptData :=
  if g.valid_entries = MASK_PRIMARY then
    { g with secondary_entries := memcpyBytes g.secondary_entries g.primary_entries (entriesSize g),
             modified := g.modified ||| GPT_MODIFIED_ENTRIES2 }
  else if g.valid_entries = MASK_SECONDARY then
    { g with primary_entries := memcpyBytes g.primary_entries g.secondary_entries (entriesSize g),
             modified := g.modified ||| GPT_MODIFIED_ENTRIES1 }
  else g

/-- The tail of `GptRepair` (cgptlib_internal.c:357-390) after the geometry
adaptation succeeded: rebuild the invalid header from the valid one, set
`valid_headers := MASK_BOTH`, rebuild the invalid entry table from the valid
one, set `valid_entries := MASK_BOTH`. -/
def GptRepairTail (g : GptData) : GptData :=
  { repairEntries { repairHeaders g with valid_headers := MASK_BOTH } with
    valid_entries := MASK_BOTH }

/-- `GptRepair` (cgptlib_internal.c:341). -/
def GptRepair (g : GptData) : GptData :=
  if g.valid_headers = MASK_NONE ∨ g.valid_entries = MASK_NONE then g
  else if (GptRecomputeSize g).1 ≠ GPT_SUCCESS then (GptRecomputeSize g).2
  else GptRepairTail (GptRecomputeSize g).2

/-- The primary header after `GptModified` recomputes the two CRCs
(cgptlib_internal.c:457-461): `entries_crc32` from the primary entry buffer,
then `header_crc32`. -/
def gptModifiedHeader (g : GptData) : GptHeader :=
  setHeaderCrc
    { g.primary_header with entries_crc32 := (crc32 (g.primary_entries.take
        (g.primary_header.size_of_entry * g.primary_header.number_of_entries % 2 ^ 32))) }

/-- `GptModified` (cgptlib_internal.c:454): recompute the primary CRCs, flag
the primary sectors, force both validity masks to `MASK_PRIMARY`, and repair. -/
def GptModified (g : GptData) : GptData :=
  GptRepair
    { g with primary_header := gptModifiedHeader g,
             modified := g.modified ||| (GPT_MODIFIED_HEADER1 ||| GPT_MODIFIED_ENTRIES1),
             valid_headers := MASK_PRIMARY, valid_entries := MASK_PRIMARY }

/-! ## Attribute accessors (cgptlib_internal.c:393)

The constants and the `gpt_att` sub-word come from `gpt.h` /
`cgptlib_internal.h`, not among the sources; modelled from the spec (§3):
bit 2 of the whole 64-bit word is `LEGACY_BOOTABLE`; the high 16 bits
(48..63) form `gpt_att`, holding `PRIORITY` (4 bits at offset 0), `TRIES`
(4 bits at offset 4) and `SUCCESSFUL` (1 bit at offset 8). -/

abbrev CGPT_ATTRIBUTE_LEGACY_BOOTABLE : Nat := 4
abbrev CGPT_ATTRIBUTE_PRIORITY_OFFSET : Nat := 0
abbrev CGPT_ATTRIBUTE_PRIORITY_MASK : Nat := 0xF
abbrev CGPT_ATTRIBUTE_TRIES_OFFSET : Nat := 4
abbrev CGPT_ATTRIBUTE_TRIES_MASK : Nat := 0xF0
abbrev CGPT_ATTRIBUTE_SUCCESSFUL_OFFSET : Nat := 8
abbrev CGPT_ATTRIBUTE_SUCCESSFUL_MASK : Nat := 0x100

/-- Read `attrs.fields.gpt_att`: the 16-bit field at bytes 6..7 of the
little-endian 64-bit attribute word. -/
def getGptAtt (a : Nat) : Nat := (a >>> 48) &&& 0xFFFF

/-- Write `attrs.fields.gpt_att`, leaving the low 48 bits of the word as-is. -/
def setGptAtt (a v : Nat) : Nat := (a &&& (2 ^ 48 - 1)) ||| ((v &&& 0xFFFF) <<< 48)

def GetEntryLegacyBootable (e : GptEntry) : Nat :=
  if e.attributes &&& CGPT_ATTRIBUTE_LEGACY_BOOTABLE ≠ 0 then 1 else 0

def GetEntrySuccessful (e : GptEntry) : Nat :=
  (getGptAtt e.attributes &&& CGPT_ATTRIBUTE_SUCCESSFUL_MASK) >>> CGPT_ATTRIBUTE_SUCCESSFUL_OFFSET

def GetEntryPriority (e : GptEntry) : Nat :=
  (getGptAtt e.attributes &&& CGPT_ATTRIBUTE_PRIORITY_MASK) >>> CGPT_ATTRIBUTE_PRIORITY_OFFSET

def GetEntryTries (e : GptEntry) : Nat :=
  (getGptAtt e.attributes &&& CGPT_ATTRIBUTE_TRIES_MASK) >>> CGPT_ATTRIBUTE_TRIES_OFFSET

/-- `whole |= mask` / `whole &= ~mask` on the 64-bit word (`~` is the 64-bit
complement, i.e. XOR with `2^64 - 1`). -/
def SetEntryLegacyBootable (e : GptEntry) (bootable : Nat) : GptEntry :=
  if bootable ≠ 0 then { e with attributes := e.attributes ||| CGPT_ATTRIBUTE_LEGACY_BOOTABLE }
  else { e with attributes := e.attributes &&& ((2 ^ 64 - 1) ^^^ CGPT_ATTRIBUTE_LEGACY_BOOTABLE) }

/-- `gpt_att |= mask` / `gpt_att &= ~mask` on the 16-bit sub-word (`~` is the
16-bit complement, i.e. XOR with `0xFFFF`). -/
def SetEntrySuccessful (e : GptEntry) (successful : Nat) : GptEntry :=
  let ga := getGptAtt e.attributes
  let ga := if successful ≠ 0 then ga ||| CGPT_ATTRIBUTE_SUCCESSFUL_MASK
            else ga &&& (0xFFFF ^^^ CGPT_ATTRIBUTE_SUCCESSFUL_MASK)
  { e with attributes := setGptAtt e.attributes ga }

def SetEntryPriority (e : GptEntry) (priority : Nat) : GptEntry :=
  let ga := getGptAtt e.attributes &&& (0xFFFF ^^^ CGPT_ATTRIBUTE_PRIORITY_MASK)
  let ga := ga ||| ((priority <<< CGPT_ATTRIBUTE_PRIORITY_OFFSET) &&& CGPT_ATTRIBUTE_PRIORITY_MASK)
  { e with attributes := setGptAtt e.attributes ga }

def SetEntryTries (e : GptEntry) (tries : Nat) : GptEntry :=
  let ga := getGptAtt e.attributes &&& (0xFFFF ^^^ CGPT_ATTRIBUTE_TRIES_MASK)
  let ga := ga ||| ((tries <<< CGPT_ATTRIBUTE_TRIES_OFFSET) &&& CGPT_ATTRIBUTE_TRIES_MASK)
  { e with attributes := setGptAtt e.attributes ga }

/-! ## Concrete data for witnesses and counterexamples -/

/-- An all-zero header (the state of a blank sector). -/
def headerZero : GptHeader :=
  { signature := List.replicate 8 0, revision := 0, size := 0, header_crc32 := 0,
    reserved_zero := 0, my_lba := 0, alternate_lba := 0, first_usable_lba := 0,
    last_usable_lba := 0, disk_uuid := List.replicate 16 0, entries_lba := 0,
    number_of_entries := 0, size_of_entry := 0, entries_crc32 := 0,
    padding := List.replicate 420 0 }

/-- A `GptData` whose sectors are blank (the entry buffers are given length
4 so that recomputing `entries_crc32` visibly changes the header). -/
def gptZero : GptData :=
  { sector_bytes := 512, drive_sectors := 100,
    primary_header := headerZero, secondary_header := headerZero,
    primary_entries := [1, 2, 3, 4], secondary_entries := [1, 2, 3, 4],
    valid_headers := 0, valid_entries := 0, modified := 0, current_kernel := 0 }

/-- A concrete entry with a nontrivial attribute word, for the accessor
witness. -/
def entryTest : GptEntry :=
  { type := 1 :: List.replicate 15 0, unique := 2 :: List.replicate 15 0,
    starting_lba := 100, ending_lba := 199,
    attributes := 0xABCD00000000F00D, name := List.replicate 72 0 }

/-- A 128-byte entry buffer holding one unused (all-zero `type`) entry. -/
def table128 : List Nat := List.replicate 128 0

/-- A valid primary header for a 100-sector drive whose entry table is
`table128`. -/
def hdrP : GptHeader :=
  setHeaderCrc
    { signature := GPT_HEADER_SIGNATURE, revision := GPT_HEADER_REVISION, size := 92,
      header_crc32 := 0, reserved_zero := 0, my_lba := 1, alternate_lba := 99,
      first_usable_lba := 34, last_usable_lba := 66, disk_uuid := List.replicate 16 0,
      entries_lba := 2, number_of_entries := 128, size_of_entry := 128,
      entries_crc32 := crc32 table128, padding := List.replicate 420 0 }

/-- The matching valid secondary header. -/
def hdrS : GptHeader :=
  setHeaderCrc { hdrP with my_lba := 99, alternate_lba := 1, entries_lba := 67 }

/-- A fully valid in-memory GPT image for a 100-sector drive. -/
def gptGood : GptData :=
  { sector_bytes := 512, drive_sectors := 100,
    primary_header := hdrP, secondary_header := hdrS,
    primary_entries := table128, secondary_entries := table128,
    valid_headers := 0, valid_entries := 0, modified := 0, current_kernel := 0 }

/-- `gptZero` with caller-set masks claiming the primary copy is valid:
drives `GptRecomputeSize` into the rewrite-then-rollback path. -/
def gptZ1 : GptData := { gptZero with valid_headers := 1, valid_entries := 1 }

/-- 128-byte image of an entry with constant type byte `t`, constant
unique-GUID byte `u`, and the given LBA range; attributes and name zero. -/
def entryBytes (t u s e : Nat) : List Nat :=
  List.replicate 16 t ++ List.replicate 16 u ++ leBytes 8 s ++ leBytes 8 e ++
    leBytes 8 0 ++ List.replicate 72 0

/-- Three used entries: entry 0 lies below `first_usable_lba`; entries 1 and 2
have intersecting ranges [100,200] and [150,250]. -/
def ovTableC : List Nat :=
  entryBytes 1 1 1 5 ++ entryBytes 1 2 100 200 ++ entryBytes 1 3 150 250

/-- Header matching `ovTableC`: CRC correct, usable region [34,1000]. -/
def ovHdrC : GptHeader :=
  { headerZero with
      first_usable_lba := 34
      last_usable_lba := 1000
      number_of_entries := 3
      size_of_entry := 128
      entries_crc32 := crc32 ovTableC }

/-- Entry `k` of the table `CheckEntries` scans for `ovTableC`/`ovHdrC`. -/
def ovEntC (k : Nat) : GptEntry :=
  ((parseEntries ovTableC).take 3).getD k (parseEntry [])

/-- Two used in-region entries with intersecting ranges [100,200], [150,250]
and distinct unique GUIDs. -/
def ovTableW : List Nat :=
  entryBytes 1 1 100 200 ++ entryBytes 1 2 150 250

/-- Header matching `ovTableW`. -/
def ovHdrW : GptHeader :=
  { headerZero with
      first_usable_lba := 34
      last_usable_lba := 1000
      number_of_entries := 2
      size_of_entry := 128
      entries_crc32 := crc32 ovTableW }


/-- A primary header whose `entries_crc32` will change when `GptModified`
recomputes it over the 4-byte entry buffer of `gptZero`. -/
def hdrM : GptHeader := { headerZero with size_of_entry := 1, number_of_entries := 4 }

/-- `gptZero` with that header: `GptModified` rewrites the primary header in
place and then fails to repair (no header is valid). -/
def gptM : GptData := { gptZero with primary_header := hdrM }


/-- A 32-byte entry table: one unused (all-zero type) entry slice. -/
def tableD1 : List Nat := List.replicate 32 0

/-- A different 32-byte entry table (a nonzero byte in the unique-GUID
field), still holding only an unused entry. -/
def tableD2 : List Nat := List.replicate 16 0 ++ (7 :: List.replicate 15 0)

/-- A valid primary header over `tableD1`. -/
def hdrDP : GptHeader := setHeaderCrc { hdrP with entries_crc32 := crc32 tableD1 }

/-- A valid secondary header over `tableD2`. -/
def hdrDS : GptHeader := setHeaderCrc { hdrS with entries_crc32 := crc32 tableD2 }

/-- A fully valid pair with divergent, individually self-consistent entry
tables. -/
def gptDiv : GptData :=
  { gptZero with
      primary_header := hdrDP
      secondary_header := hdrDS
      primary_entries := tableD1
      secondary_entries := tableD2 }

/-- The header the entry-validity bits refer to: the primary unless only the
secondary header is valid (`goodhdr` of `GptSanityCheck` as recorded in the
masks it outputs). -/
def goodHeader (g : GptData) : GptHeader :=
  if g.valid_headers = MASK_SECONDARY then g.secondary_header else g.primary_header

/-- The masks of `g` describe its buffers honestly: the parameters are sane,
each mask names at least one valid copy, every header bit set corresponds to
a header `CheckHeader` accepts, every entry bit set corresponds to a table
`CheckEntries` accepts against `goodHeader g`, and two valid headers compare
field-equal.  `GptSanityCheck` establishes this whenever it succeeds. -/
def Inv (g : GptData) : Prop :=
  CheckParameters g = GPT_SUCCESS ∧
  (g.valid_headers = MASK_PRIMARY ∨ g.valid_headers = MASK_SECONDARY ∨
    g.valid_headers = MASK_BOTH) ∧
  (g.valid_entries = MASK_PRIMARY ∨ g.valid_entries = MASK_SECONDARY ∨
    g.valid_entries = MASK_BOTH) ∧
  (g.valid_headers ≠ MASK_SECONDARY → CheckHeader g.primary_header false g.drive_sectors = 0) ∧
  (g.valid_headers ≠ MASK_PRIMARY → CheckHeader g.secondary_header true g.drive_sectors = 0) ∧
  (g.valid_entries ≠ MASK_SECONDARY → CheckEntries g.primary_entries (goodHeader g) = 0) ∧
  (g.valid_entries ≠ MASK_PRIMARY → CheckEntries g.secondary_entries (goodHeader g) = 0) ∧
  (g.valid_headers = MASK_BOTH → HeaderFieldsSame g.primary_header g.secondary_header = 0)

/-- The state `GptModified` hands to `GptRepair`: primary CRCs recomputed in
place, primary sectors flagged, both masks forced to `MASK_PRIMARY`. -/
def gptModifiedPre (g : GptData) : GptData :=
  { g with
      primary_header := gptModifiedHeader g
      modified := g.modified ||| (GPT_MODIFIED_HEADER1 ||| GPT_MODIFIED_ENTRIES1)
      valid_headers := MASK_PRIMARY
      valid_entries := MASK_PRIMARY }

/-- A 28-byte message (an unused-entry prefix with unique-GUID byte 1). -/
def tcM1 : List Nat := List.replicate 16 0 ++ (1 :: List.replicate 11 0)

/-- A different 28-byte message (unique-GUID byte 2). -/
def tcM2 : List Nat := List.replicate 16 0 ++ (2 :: List.replicate 11 0)

/-- `tcM1` with its own CRC appended: appending a CRC-32 value to its message
always yields the same CRC, so `tableC1` and `tableC2` collide. -/
def tableC1 : List Nat := tcM1 ++ leBytes 4 (crc32 tcM1)

/-- `tcM2` with its own CRC appended: same CRC as `tableC1`, different
bytes. -/
def tableC2 : List Nat := tcM2 ++ leBytes 4 (crc32 tcM2)

/-- A valid primary header over `tableC1`. -/
def hdrCP : GptHeader := setHeaderCrc { hdrP with entries_crc32 := crc32 tableC1 }

/-- A valid secondary header over `tableC2` (same stored CRC by collision). -/
def hdrCS : GptHeader := setHeaderCrc { hdrS with entries_crc32 := crc32 tableC2 }

/-- A fully valid image whose two entry tables differ in bytes but collide in
CRC: `GptSanityCheck` reports both masks `MASK_BOTH`, and `GptRepair` leaves
the divergent tables untouched. -/
def gptCol : GptData :=
  { gptZero with
      primary_header := hdrCP
      secondary_header := hdrCS
      primary_entries := tableC1
      secondary_entries := tableC2
      valid_headers := MASK_BOTH
      valid_entries := MASK_BOTH }

/-! ## Theorems -/

@[simp] theorem sanityReset_sector_bytes (g : GptData) :
    (sanityReset g).sector_bytes = g.sector_bytes := rfl

@[simp] theorem sanityReset_drive_sectors (g : GptData) :
    (sanityReset g).drive_sectors = g.drive_sectors := rfl

@[simp] theorem sanityReset_primary_header (g : GptData) :
    (sanityReset g).primary_header = g.primary_header := rfl

@[simp] theorem sanityReset_secondary_header (g : GptData) :
    (sanityReset g).secondary_header = g.secondary_header := rfl

@[simp] theorem sanityReset_primary_entries (g : GptData) :
    (sanityReset g).primary_entries = g.primary_entries := rfl

@[simp] theorem sanityReset_secondary_entries (g : GptData) :
    (sanityReset g).secondary_entries = g.secondary_entries := rfl

@[simp] theorem sanityReset_valid_headers (g : GptData) :
    (sanityReset g).valid_headers = MASK_NONE := rfl

@[simp] theorem sanityReset_valid_entries (g : GptData) :
    (sanityReset g).valid_entries = MASK_NONE := rfl

@[simp] theorem sanityReset_modified (g : GptData) :
    (sanityReset g).modified = g.modified := rfl

@[simp] theorem sanityReset_current_kernel (g : GptData) :
    (sanityReset g).current_kernel = g.current_kernel := rfl

/-- **C5.** Non-recovery safety: whenever `valid_headers = NONE` or
`valid_entries = NONE`, `GptRepair` returns the `GptData` unchanged — same
four buffers, same validity masks, same `modified` mask. -/
theorem GptRepair_none_noop (g : GptData)
    (h : g.valid_headers = MASK_NONE ∨ g.valid_entries = MASK_NONE) :
    GptRepair g = g := by
  unfold GptRepair
  rcases h with h | h <;> simp [h]

theorem GptRepair_none_noop_witness :
    (gptZero.valid_headers = MASK_NONE ∨ gptZero.valid_entries = MASK_NONE) ∧
    GptRepair gptZero = gptZero :=
  ⟨Or.inl rfl, GptRepair_none_noop gptZero (Or.inl rfl)⟩

/-- **C10.** `GptSanityCheck` clears both validity masks before the parameter
check: on `INVALID_SECTOR_SIZE`, `INVALID_SECTOR_NUMBER` or `INVALID_HEADERS`
both masks come back `NONE` whatever their values on entry, and on
`INVALID_ENTRIES` the `valid_entries` mask comes back `NONE`. -/
theorem GptSanityCheck_error_masks (gpt : GptData) :
    (((GptSanityCheck gpt).1 = GPT_ERROR_INVALID_SECTOR_SIZE ∨
      (GptSanityCheck gpt).1 = GPT_ERROR_INVALID_SECTOR_NUMBER ∨
      (GptSanityCheck gpt).1 = GPT_ERROR_INVALID_HEADERS) →
      (GptSanityCheck gpt).2.valid_headers = MASK_NONE ∧
      (GptSanityCheck gpt).2.valid_entries = MASK_NONE) ∧
    ((GptSanityCheck gpt).1 = GPT_ERROR_INVALID_ENTRIES →
      (GptSanityCheck gpt).2.valid_entries = MASK_NONE) := by
  by_cases hp : CheckParameters (sanityReset gpt) = GPT_SUCCESS
  · simp only [GptSanityCheck, hp]
    split_ifs <;> simp_all
  · simp [GptSanityCheck, hp]

theorem GptSanityCheck_error_masks_witness :
    (GptSanityCheck gptZero).1 = GPT_ERROR_INVALID_HEADERS ∧
    (GptSanityCheck gptZero).2.valid_headers = MASK_NONE ∧
    (GptSanityCheck gptZero).2.valid_entries = MASK_NONE :=
  ⟨by decide, (GptSanityCheck_error_masks gptZero).1 (Or.inr (Or.inr (by decide)))⟩

/-! ### Bit-level helpers for the attribute accessors -/

theorem testBit_m15 (i : Nat) : Nat.testBit 15 i = decide (i < 4) := by
  rw [show (15 : Nat) = 2 ^ 4 - 1 by norm_num, Nat.testBit_two_pow_sub_one]

theorem testBit_m16 (i : Nat) : Nat.testBit 65535 i = decide (i < 16) := by
  rw [show (65535 : Nat) = 2 ^ 16 - 1 by norm_num, Nat.testBit_two_pow_sub_one]

theorem testBit_m48 (i : Nat) : Nat.testBit (2 ^ 48 - 1) i = decide (i < 48) := by
  rw [Nat.testBit_two_pow_sub_one]

theorem testBit_m240 (i : Nat) : Nat.testBit 240 i = (decide (4 ≤ i) && decide (i < 8)) := by
  rw [show (240 : Nat) = (2 ^ 8 - 1) ^^^ (2 ^ 4 - 1) by decide, Nat.testBit_xor,
    Nat.testBit_two_pow_sub_one, Nat.testBit_two_pow_sub_one]
  by_cases h4 : i < 4 <;> by_cases h8 : i < 8 <;> simp [h4, h8] <;> omega

theorem testBit_m256 (i : Nat) : Nat.testBit 256 i = decide (i = 8) := by
  rw [show (256 : Nat) = 2 ^ 8 by norm_num, Nat.testBit_two_pow]
  simp [eq_comm]

theorem testBit_m4 (i : Nat) : Nat.testBit 4 i = decide (i = 2) := by
  rw [show (4 : Nat) = 2 ^ 2 by norm_num, Nat.testBit_two_pow]
  simp [eq_comm]

theorem testBit_clear15 (i : Nat) :
    Nat.testBit (65535 ^^^ 15) i = (decide (4 ≤ i) && decide (i < 16)) := by
  rw [Nat.testBit_xor, testBit_m16, testBit_m15]
  by_cases h4 : i < 4 <;> by_cases h16 : i < 16 <;> simp [h4, h16] <;> omega

theorem testBit_clear240 (i : Nat) :
    Nat.testBit (65535 ^^^ 240) i = (decide (i < 16) && !(decide (4 ≤ i) && decide (i < 8))) := by
  rw [Nat.testBit_xor, testBit_m16, testBit_m240]
  by_cases h4 : i < 4 <;> by_cases h8 : i < 8 <;> by_cases h16 : i < 16 <;>
    simp [h4, h8, h16] <;> omega

theorem testBit_clear256 (i : Nat) :
    Nat.testBit (65535 ^^^ 256) i = (decide (i < 16) && !decide (i = 8)) := by
  rw [Nat.testBit_xor, testBit_m16, testBit_m256]
  by_cases h8 : i = 8 <;> by_cases h16 : i < 16 <;> simp [h8, h16] <;> omega

theorem testBit_clear4 (i : Nat) :
    Nat.testBit (2 ^ 64 - 1 ^^^ 4) i = (decide (i < 64) && !decide (i = 2)) := by
  rw [Nat.testBit_xor, Nat.testBit_two_pow_sub_one, testBit_m4]
  by_cases h2 : i = 2 <;> by_cases h64 : i < 64 <;> simp [h2, h64] <;> omega

theorem testBit_small (v i k : Nat) (hv : v < 2 ^ k) (hi : k ≤ i) : Nat.testBit v i = false :=
  Nat.testBit_eq_false_of_lt (Nat.lt_of_lt_of_le hv (Nat.pow_le_pow_right (by omega) hi))

theorem testBit_m1 (i : Nat) : Nat.testBit 1 i = decide (i = 0) := by
  rw [show (1 : Nat) = 2 ^ 0 by norm_num, Nat.testBit_two_pow]
  simp [eq_comm]

theorem testBit_c15 (i : Nat) :
    Nat.testBit 65520 i = (decide (4 ≤ i) && decide (i < 16)) := by
  rw [show (65520 : Nat) = 65535 ^^^ 15 by decide, Nat.testBit_xor, testBit_m16, testBit_m15]
  by_cases h4 : i < 4 <;> by_cases h16 : i < 16 <;> simp [h4, h16] <;> omega

theorem testBit_c240 (i : Nat) :
    Nat.testBit 65295 i = (decide (i < 16) && !(decide (4 ≤ i) && decide (i < 8))) := by
  rw [show (65295 : Nat) = 65535 ^^^ 240 by decide, Nat.testBit_xor, testBit_m16, testBit_m240]
  by_cases h4 : i < 4 <;> by_cases h8 : i < 8 <;> by_cases h16 : i < 16 <;>
    simp [h4, h8, h16] <;> omega

theorem testBit_c256 (i : Nat) :
    Nat.testBit 65279 i = (decide (i < 16) && !decide (i = 8)) := by
  rw [show (65279 : Nat) = 65535 ^^^ 256 by decide, Nat.testBit_xor, testBit_m16, testBit_m256]
  by_cases h8 : i = 8 <;> by_cases h16 : i < 16 <;> simp [h8, h16] <;> omega

theorem testBit_c4 (i : Nat) :
    Nat.testBit 18446744073709551611 i = (decide (i < 64) && !decide (i = 2)) := by
  rw [show (18446744073709551611 : Nat) = (2 ^ 64 - 1) ^^^ 4 by decide, Nat.testBit_xor,
    Nat.testBit_two_pow_sub_one, testBit_m4]
  by_cases h2 : i = 2 <;> by_cases h64 : i < 64 <;> simp [h2, h64] <;> omega

/-- **C9.** Attribute accessor round-trip and isolation: `Get` after `Set`
returns the value written (priority and tries for values up to 15, successful
and legacy-bootable for 0/1), and each setter leaves every attribute bit
outside its own mask unchanged. -/
theorem attr_roundtrip_isolation (e : GptEntry) (ha : e.attributes < 2 ^ 64) :
    (∀ v, v ≤ 15 → GetEntryPriority (SetEntryPriority e v) = v) ∧
    (∀ v, v ≤ 15 → GetEntryTries (SetEntryTries e v) = v) ∧
    (∀ b, b = 0 ∨ b = 1 → GetEntrySuccessful (SetEntrySuccessful e b) = b) ∧
    (∀ b, b = 0 ∨ b = 1 → GetEntryLegacyBootable (SetEntryLegacyBootable e b) = b) ∧
    (∀ v i, ¬(48 ≤ i ∧ i ≤ 51) →
      (SetEntryPriority e v).attributes.testBit i = e.attributes.testBit i) ∧
    (∀ v i, ¬(52 ≤ i ∧ i ≤ 55) →
      (SetEntryTries e v).attributes.testBit i = e.attributes.testBit i) ∧
    (∀ b i, i ≠ 56 →
      (SetEntrySuccessful e b).attributes.testBit i = e.attributes.testBit i) ∧
    (∀ b i, i ≠ 2 →
      (SetEntryLegacyBootable e b).attributes.testBit i = e.attributes.testBit i) := by
  refine ⟨?_, ?_, ?_, ?_, ?_, ?_, ?_, ?_⟩
  · intro v hv
    apply Nat.eq_of_testBit_eq
    intro i
    simp only [GetEntryPriority, SetEntryPriority, getGptAtt, setGptAtt,
      CGPT_ATTRIBUTE_PRIORITY_MASK, CGPT_ATTRIBUTE_PRIORITY_OFFSET,
      Nat.shiftRight_zero, Nat.shiftLeft_zero, Nat.testBit_and, Nat.testBit_or,
      Nat.testBit_shiftLeft, Nat.testBit_shiftRight, testBit_m15, testBit_m16,
      testBit_m48, testBit_c15]
    by_cases h4 : i < 4
    · simp [h4, testBit_c15, show 48 ≤ 48 + i by omega, show ¬(48 + i < 48) by omega,
        show 48 + i - 48 = i by omega, show i < 16 by omega]
    · simp [h4, testBit_c15, testBit_small v i 4 (by omega) (by omega)] <;> intros <;> omega
  · intro v hv
    apply Nat.eq_of_testBit_eq
    intro i
    simp only [GetEntryTries, SetEntryTries, getGptAtt, setGptAtt,
      CGPT_ATTRIBUTE_TRIES_MASK, CGPT_ATTRIBUTE_TRIES_OFFSET,
      Nat.testBit_and, Nat.testBit_or,
      Nat.testBit_shiftLeft, Nat.testBit_shiftRight, testBit_m240, testBit_m16,
      testBit_m48, testBit_c240]
    by_cases h4 : i < 4
    · simp [h4, testBit_c240, show 48 ≤ 48 + (4 + i) by omega,
        show ¬(48 + (4 + i) < 48) by omega,
        show 48 + (4 + i) - 48 = 4 + i by omega, show 4 + i < 16 by omega,
        show (4 : Nat) ≤ 4 + i by omega, show 4 + i - 4 = i by omega,
        show 4 + i < 8 by omega, show ¬(4 + i < 4) by omega] <;> intros <;> omega
    · simp [h4, testBit_c240, testBit_small v i 4 (by omega) (by omega)] <;> intros <;> omega
  · rintro b (rfl | rfl)
    · apply Nat.eq_of_testBit_eq
      intro i
      simp only [GetEntrySuccessful, SetEntrySuccessful, getGptAtt, setGptAtt,
        CGPT_ATTRIBUTE_SUCCESSFUL_MASK, CGPT_ATTRIBUTE_SUCCESSFUL_OFFSET,
        Nat.testBit_and, Nat.testBit_or, Nat.testBit_shiftLeft, Nat.testBit_shiftRight,
        testBit_m256, testBit_m16, testBit_m48, testBit_c256]
      simp [testBit_c256] <;> intros <;> omega
    · apply Nat.eq_of_testBit_eq
      intro i
      simp only [GetEntrySuccessful, SetEntrySuccessful, getGptAtt, setGptAtt,
        CGPT_ATTRIBUTE_SUCCESSFUL_MASK, CGPT_ATTRIBUTE_SUCCESSFUL_OFFSET,
        Nat.testBit_and, Nat.testBit_or, Nat.testBit_shiftLeft, Nat.testBit_shiftRight,
        testBit_m256, testBit_m16, testBit_m48, testBit_m1]
      by_cases h0 : i = 0
      · simp [h0, testBit_m256, testBit_m16]
      · simp [h0, testBit_m256, testBit_m16, show ¬(8 + i = 8) by omega]
  · rintro b (rfl | rfl)
    · have h4 : (e.attributes &&& 18446744073709551611) &&& 4 = 0 := by
        apply Nat.eq_of_testBit_eq
        intro i
        simp only [Nat.testBit_and, testBit_c4, testBit_m4, Nat.zero_testBit]
        by_cases h2 : i = 2 <;> simp [h2]
      simp [GetEntryLegacyBootable, SetEntryLegacyBootable,
        CGPT_ATTRIBUTE_LEGACY_BOOTABLE, h4]
    · have h4 : (e.attributes ||| 4) &&& 4 = 4 := by
        apply Nat.eq_of_testBit_eq
        intro i
        simp only [Nat.testBit_and, Nat.testBit_or, testBit_m4]
        by_cases h2 : i = 2 <;> simp [h2]
      simp [GetEntryLegacyBootable, SetEntryLegacyBootable,
        CGPT_ATTRIBUTE_LEGACY_BOOTABLE, h4]
  · intro v i hi
    simp only [SetEntryPriority, getGptAtt, setGptAtt,
      CGPT_ATTRIBUTE_PRIORITY_MASK, CGPT_ATTRIBUTE_PRIORITY_OFFSET,
      Nat.shiftLeft_zero, Nat.testBit_and, Nat.testBit_or,
      Nat.testBit_shiftLeft, Nat.testBit_shiftRight, testBit_m15, testBit_m16,
      testBit_m48, testBit_c15]
    by_cases h48 : i < 48
    · simp [h48, testBit_c15]
    · by_cases h64 : i < 64
      · simp [h48, testBit_c15, show 48 + (i - 48) = i by omega, show i - 48 < 16 by omega,
          show (4 : Nat) ≤ i - 48 by omega, show ¬(i - 48 < 4) by omega] <;> intros <;> omega
      · simp [h48, testBit_c15, testBit_small e.attributes i 64 ha (by omega),
          show ¬(i - 48 < 16) by omega]
  · intro v i hi
    simp only [SetEntryTries, getGptAtt, setGptAtt,
      CGPT_ATTRIBUTE_TRIES_MASK, CGPT_ATTRIBUTE_TRIES_OFFSET,
      Nat.testBit_and, Nat.testBit_or,
      Nat.testBit_shiftLeft, Nat.testBit_shiftRight, testBit_m240, testBit_m16,
      testBit_m48, testBit_c240]
    by_cases h48 : i < 48
    · simp [h48, testBit_c240]
    · by_cases h64 : i < 64
      · by_cases hlow : i - 48 < 4
        · simp [h48, testBit_c240, show 48 + (i - 48) = i by omega,
            show i - 48 < 16 by omega, hlow,
            show ¬(4 : Nat) ≤ i - 48 by omega] <;> intros <;> omega
        · simp [h48, testBit_c240, show 48 + (i - 48) = i by omega,
            show i - 48 < 16 by omega, hlow,
            show ¬(i - 48 < 8) by omega, show (4 : Nat) ≤ i - 48 by omega] <;>
            intros <;> omega
      · simp [h48, testBit_c240, testBit_small e.attributes i 64 ha (by omega),
          show ¬(i - 48 < 16) by omega]
  · intro b i hi
    by_cases hb : b = 0
    all_goals
      simp only [SetEntrySuccessful, getGptAtt, setGptAtt,
        CGPT_ATTRIBUTE_SUCCESSFUL_MASK, CGPT_ATTRIBUTE_SUCCESSFUL_OFFSET]
      simp only [hb, reduceIte, ne_eq, not_true_eq_false, not_false_eq_true, if_true, if_false,
        ite_true, ite_false]
      simp only [Nat.testBit_and, Nat.testBit_or, Nat.testBit_shiftLeft,
        Nat.testBit_shiftRight, testBit_m256, testBit_m16, testBit_m48, testBit_c256]
      by_cases h48 : i < 48
      case pos => simp [h48, testBit_c256]
      case neg =>
        by_cases h64 : i < 64
        case pos =>
          simp [h48, testBit_c256, show 48 + (i - 48) = i by omega,
            show i - 48 < 16 by omega, show ¬(i - 48 = 8) by omega] <;> intros <;> omega
        case neg =>
          simp [h48, testBit_c256, testBit_small e.attributes i 64 ha (by omega),
            show ¬(i - 48 < 16) by omega]
  · intro b i hi
    by_cases hb : b = 0
    all_goals
      simp only [SetEntryLegacyBootable, CGPT_ATTRIBUTE_LEGACY_BOOTABLE]
      simp only [hb, reduceIte, ne_eq, not_true_eq_false, not_false_eq_true, if_true, if_false,
        ite_true, ite_false]
      simp only [Nat.testBit_and, Nat.testBit_or, testBit_m4, testBit_c4]
      by_cases h64 : i < 64
      case pos => simp [hi, h64, testBit_c4, testBit_m4]
      case neg => simp [hi, h64, testBit_c4, testBit_m4,
        testBit_small e.attributes i 64 ha (by omega)]

theorem attr_roundtrip_isolation_witness :
    entryTest.attributes < 2 ^ 64 ∧
    GetEntryPriority (SetEntryPriority entryTest 9) = 9 ∧
    GetEntryTries (SetEntryTries entryTest 5) = 5 ∧
    GetEntrySuccessful (SetEntrySuccessful entryTest 1) = 1 ∧
    GetEntryLegacyBootable (SetEntryLegacyBootable entryTest 0) = 0 ∧
    (SetEntryPriority entryTest 9).attributes.testBit 2 = entryTest.attributes.testBit 2 :=
  ⟨by decide,
   (attr_roundtrip_isolation entryTest (by decide)).1 9 (by decide),
   (attr_roundtrip_isolation entryTest (by decide)).2.1 5 (by decide),
   (attr_roundtrip_isolation entryTest (by decide)).2.2.1 1 (Or.inr rfl),
   (attr_roundtrip_isolation entryTest (by decide)).2.2.2.1 0 (Or.inl rfl),
   (attr_roundtrip_isolation entryTest (by decide)).2.2.2.2.1 9 2 (by omega)⟩

theorem sub64_eq_sub (a b : Nat) (hb : b ≤ a) (ha : a < 2 ^ 64) (hb' : b < 2 ^ 64) :
    sub64 a b = a - b := by
  unfold sub64
  omega

/-- `setHeaderCrc` establishes `HeaderCrc h = h.header_crc32`: the CRC is
taken over the image with the `header_crc32` field zeroed, so rewriting that
field does not disturb it. -/
theorem HeaderCrc_setHeaderCrc (h : GptHeader) :
    HeaderCrc (setHeaderCrc h) = (setHeaderCrc h).header_crc32 := by
  cases h; rfl

/-- The full characterization of `CheckHeader`: a header passes exactly when
every condition of the C cascade holds, written positively. -/
theorem CheckHeader_characterization (h : GptHeader) (is_secondary : Bool) (drive_sectors : Nat)
    (hds_lo : 33 ≤ drive_sectors) (hds_hi : drive_sectors < 2 ^ 64) :
    CheckHeader h is_secondary drive_sectors = 0 ↔
      ((h.signature.take 8 = GPT_HEADER_SIGNATURE ∨ h.signature.take 8 = GPT_HEADER_SIGNATURE2) ∧
       h.revision = GPT_HEADER_REVISION ∧
       MIN_SIZE_OF_HEADER ≤ h.size ∧ h.size ≤ MAX_SIZE_OF_HEADER ∧
       HeaderCrc h = h.header_crc32 ∧
       h.reserved_zero = 0 ∧
       h.size_of_entry = 128 ∧
       MIN_NUMBER_OF_ENTRIES ≤ h.number_of_entries ∧
       h.number_of_entries ≤ MAX_NUMBER_OF_ENTRIES ∧
       h.number_of_entries * h.size_of_entry = TOTAL_ENTRIES_SIZE ∧
       (if is_secondary then
          h.my_lba = drive_sectors - 1 ∧ h.entries_lba = h.my_lba - GPT_ENTRIES_SECTORS
        else h.my_lba = 1 ∧ h.entries_lba = 2) ∧
       2 + GPT_ENTRIES_SECTORS ≤ h.first_usable_lba ∧
       h.last_usable_lba < drive_sectors - 1 - GPT_ENTRIES_SECTORS ∧
       h.first_usable_lba ≤ h.last_usable_lba) := by
  have e1 : sub64 drive_sectors 1 = drive_sectors - 1 :=
    sub64_eq_sub _ _ (by omega) hds_hi (by norm_num)
  have e2 : sub64 (drive_sectors - 1) 32 = drive_sectors - 1 - 32 :=
    sub64_eq_sub _ _ (by omega) (by omega) (by norm_num)
  unfold CheckHeader
  rw [e1, e2]
  simp only [GPT_ENTRIES_SECTORS, MIN_SIZE_OF_HEADER, MAX_SIZE_OF_HEADER,
    GPT_HEADER_REVISION, MIN_NUMBER_OF_ENTRIES, MAX_NUMBER_OF_ENTRIES, TOTAL_ENTRIES_SIZE]
  constructor
  · intro hx
    by_cases c1 : (h.signature.take 8 ≠ GPT_HEADER_SIGNATURE ∧
                   h.signature.take 8 ≠ GPT_HEADER_SIGNATURE2)
    · rw [if_pos c1] at hx; exact absurd hx one_ne_zero
    rw [if_neg c1] at hx
    by_cases c2 : h.revision ≠ 0x00010000
    · rw [if_pos c2] at hx; exact absurd hx one_ne_zero
    rw [if_neg c2] at hx
    by_cases c3 : (h.size < 92 ∨ h.size > 512)
    · rw [if_pos c3] at hx; exact absurd hx one_ne_zero
    rw [if_neg c3] at hx
    by_cases c4 : HeaderCrc h ≠ h.header_crc32
    · rw [if_pos c4] at hx; exact absurd hx one_ne_zero
    rw [if_neg c4] at hx
    by_cases c5 : h.reserved_zero ≠ 0
    · rw [if_pos c5] at hx; exact absurd hx one_ne_zero
    rw [if_neg c5] at hx
    by_cases c6 : h.size_of_entry ≠ 128
    · rw [if_pos c6] at hx; exact absurd hx one_ne_zero
    rw [if_neg c6] at hx
    by_cases c7 : (h.number_of_entries < 128 ∨ h.number_of_entries > 128 ∨
                   h.number_of_entries * h.size_of_entry % 2 ^ 32 ≠ 16384)
    · rw [if_pos c7] at hx; exact absurd hx one_ne_zero
    rw [if_neg c7] at hx
    push_neg at c1 c2 c3 c4 c5 c6 c7
    have hsig : h.signature.take 8 = GPT_HEADER_SIGNATURE ∨
                h.signature.take 8 = GPT_HEADER_SIGNATURE2 := by
      by_cases hs : h.signature.take 8 = GPT_HEADER_SIGNATURE
      · exact Or.inl hs
      · exact Or.inr (c1 hs)
    have hsoe : h.size_of_entry = 128 := c6
    have hprod : h.number_of_entries * h.size_of_entry = 16384 := by
      have hmax := c7.2.1
      have hmod := c7.2.2
      rw [hsoe] at hmod ⊢
      omega
    cases is_secondary
    · simp only [Bool.false_eq_true, if_false, ite_false] at hx ⊢
      by_cases c9 : h.my_lba ≠ 1
      · rw [if_pos c9] at hx; exact absurd hx one_ne_zero
      rw [if_neg c9] at hx
      push_neg at c9
      by_cases c10 : h.entries_lba ≠ add64 h.my_lba 1
      · rw [if_pos c10] at hx; exact absurd hx one_ne_zero
      rw [if_neg c10] at hx
      push_neg at c10
      by_cases c11 : h.first_usable_lba < 2 + 32
      · rw [if_pos c11] at hx; exact absurd hx one_ne_zero
      rw [if_neg c11] at hx
      by_cases c12 : h.last_usable_lba ≥ drive_sectors - 1 - 32
      · rw [if_pos c12] at hx; exact absurd hx one_ne_zero
      rw [if_neg c12] at hx
      by_cases c13 : h.first_usable_lba > h.last_usable_lba
      · rw [if_pos c13] at hx; exact absurd hx one_ne_zero
      exact ⟨hsig, c2, c3.1, c3.2, c4, c5, hsoe, c7.1, c7.2.1, hprod,
        ⟨c9, by rw [c10, c9]; rfl⟩, by omega, by omega, by omega⟩
    · simp only [if_true, ite_true] at hx ⊢
      by_cases c9 : h.my_lba ≠ drive_sectors - 1
      · rw [if_pos c9] at hx; exact absurd hx one_ne_zero
      rw [if_neg c9] at hx
      push_neg at c9
      have hme : sub64 h.my_lba 32 = h.my_lba - 32 := by
        rw [c9]; exact sub64_eq_sub _ _ (by omega) (by omega) (by norm_num)
      rw [hme] at hx
      by_cases c10 : h.entries_lba ≠ h.my_lba - 32
      · rw [if_pos c10] at hx; exact absurd hx one_ne_zero
      rw [if_neg c10] at hx
      push_neg at c10
      by_cases c11 : h.first_usable_lba < 2 + 32
      · rw [if_pos c11] at hx; exact absurd hx one_ne_zero
      rw [if_neg c11] at hx
      by_cases c12 : h.last_usable_lba ≥ drive_sectors - 1 - 32
      · rw [if_pos c12] at hx; exact absurd hx one_ne_zero
      rw [if_neg c12] at hx
      by_cases c13 : h.first_usable_lba > h.last_usable_lba
      · rw [if_pos c13] at hx; exact absurd hx one_ne_zero
      exact ⟨hsig, c2, c3.1, c3.2, c4, c5, hsoe, c7.1, c7.2.1, hprod,
        ⟨c9, c10⟩, by omega, by omega, by omega⟩
  · intro hr
    obtain ⟨hsig, hrev, hsz1, hsz2, hcrc, hres, hsoe, hn1, hn2, hprod, hrole, hfu, hlu, hfl⟩ := hr
    have c1 : ¬(h.signature.take 8 ≠ GPT_HEADER_SIGNATURE ∧
               h.signature.take 8 ≠ GPT_HEADER_SIGNATURE2) := by
      rcases hsig with hs | hs <;> simp [hs]
    rw [if_neg c1, if_neg (by simp [hrev]), if_neg (by omega),
        if_neg (by simp [hcrc]), if_neg (by simp [hres]), if_neg (by simp [hsoe]),
        if_neg (by push_neg; exact ⟨hn1, hn2, by rw [hprod]; omega⟩)]
    cases is_secondary
    · simp only [Bool.false_eq_true, if_false, ite_false] at hrole ⊢
      have h10 : add64 h.my_lba 1 = 2 := by rw [hrole.1]; rfl
      rw [if_neg (by simp [hrole.1]), if_neg (by rw [h10]; simp [hrole.2]),
          if_neg (by omega), if_neg (by omega), if_neg (by omega)]
    · simp only [if_true, ite_true] at hrole ⊢
      have hme : sub64 h.my_lba 32 = h.my_lba - 32 := by
        rw [hrole.1]; exact sub64_eq_sub _ _ (by omega) (by omega) (by norm_num)
      rw [if_neg (by simp [hrole.1]), if_neg (by rw [hme]; simp [hrole.2]),
          if_neg (by omega), if_neg (by omega), if_neg (by omega)]

/-- **C4.** Header acceptance: for a drive of at least 33 sectors (below
2^64), `CheckHeader` accepts exactly the headers with a known signature, the
right revision, a size in [92, 512], a matching `header_crc32`, zero
`reserved_zero`, a 128-byte entry size, exactly 128 entries covering 16384
bytes, the role-correct `my_lba` and `entries_lba`, and a usable region
[first_usable_lba, last_usable_lba] inside sectors `2 + 32 .. drive_sectors
- 1 - 32 - 1`. -/
theorem CheckHeader_iff (h : GptHeader) (is_secondary : Bool) (drive_sectors : Nat)
    (hds_lo : 33 ≤ drive_sectors) (hds_hi : drive_sectors < 2 ^ 64) :
    CheckHeader h is_secondary drive_sectors = 0 ↔
      ((h.signature.take 8 = GPT_HEADER_SIGNATURE ∨ h.signature.take 8 = GPT_HEADER_SIGNATURE2) ∧
       h.revision = GPT_HEADER_REVISION ∧
       MIN_SIZE_OF_HEADER ≤ h.size ∧ h.size ≤ MAX_SIZE_OF_HEADER ∧
       HeaderCrc h = h.header_crc32 ∧
       h.reserved_zero = 0 ∧
       h.size_of_entry = 128 ∧
       MIN_NUMBER_OF_ENTRIES ≤ h.number_of_entries ∧
       h.number_of_entries ≤ MAX_NUMBER_OF_ENTRIES ∧
       h.number_of_entries * h.size_of_entry = TOTAL_ENTRIES_SIZE ∧
       (if is_secondary then
          h.my_lba = drive_sectors - 1 ∧ h.entries_lba = h.my_lba - GPT_ENTRIES_SECTORS
        else h.my_lba = 1 ∧ h.entries_lba = 2) ∧
       2 + GPT_ENTRIES_SECTORS ≤ h.first_usable_lba ∧
       h.last_usable_lba < drive_sectors - 1 - GPT_ENTRIES_SECTORS ∧
       h.first_usable_lba ≤ h.last_usable_lba) :=
  CheckHeader_characterization h is_secondary drive_sectors hds_lo hds_hi

theorem CheckHeader_iff_witness :
    (33 ≤ (100 : Nat) ∧ (100 : Nat) < 2 ^ 64) ∧ CheckHeader hdrP false 100 = 0 :=
  ⟨⟨by decide, by decide⟩,
   (CheckHeader_iff hdrP false 100 (by decide) (by decide)).mpr
     ⟨by decide, by decide, by decide, by decide, HeaderCrc_setHeaderCrc _,
      by decide, by decide, by decide, by decide, by decide, by decide,
      by decide, by decide, by decide⟩⟩

theorem GptData_ext (a b : GptData)
    (h1 : a.sector_bytes = b.sector_bytes) (h2 : a.drive_sectors = b.drive_sectors)
    (h3 : a.primary_header = b.primary_header) (h4 : a.secondary_header = b.secondary_header)
    (h5 : a.primary_entries = b.primary_entries) (h6 : a.secondary_entries = b.secondary_entries)
    (h7 : a.valid_headers = b.valid_headers) (h8 : a.valid_entries = b.valid_entries)
    (h9 : a.modified = b.modified) (h10 : a.current_kernel = b.current_kernel) : a = b := by
  cases a; cases b; simp_all

@[simp] theorem sanity_snd_sector_bytes (g : GptData) :
    (GptSanityCheck g).2.sector_bytes = g.sector_bytes := by
  unfold GptSanityCheck; split_ifs <;> rfl

@[simp] theorem sanity_snd_drive_sectors (g : GptData) :
    (GptSanityCheck g).2.drive_sectors = g.drive_sectors := by
  unfold GptSanityCheck; split_ifs <;> rfl

@[simp] theorem sanity_snd_primary_header (g : GptData) :
    (GptSanityCheck g).2.primary_header = g.primary_header := by
  unfold GptSanityCheck; split_ifs <;> rfl

@[simp] theorem sanity_snd_secondary_header (g : GptData) :
    (GptSanityCheck g).2.secondary_header = g.secondary_header := by
  unfold GptSanityCheck; split_ifs <;> rfl

@[simp] theorem sanity_snd_primary_entries (g : GptData) :
    (GptSanityCheck g).2.primary_entries = g.primary_entries := by
  unfold GptSanityCheck; split_ifs <;> rfl

@[simp] theorem sanity_snd_secondary_entries (g : GptData) :
    (GptSanityCheck g).2.secondary_entries = g.secondary_entries := by
  unfold GptSanityCheck; split_ifs <;> rfl

@[simp] theorem sanity_snd_modified (g : GptData) :
    (GptSanityCheck g).2.modified = g.modified := by
  unfold GptSanityCheck; split_ifs <;> rfl

@[simp] theorem sanity_snd_current_kernel (g : GptData) :
    (GptSanityCheck g).2.current_kernel = g.current_kernel := by
  unfold GptSanityCheck; split_ifs <;> rfl

theorem GptSanityCheck_congr (g1 g2 : GptData) (h : sanityReset g1 = sanityReset g2) :
    GptSanityCheck g1 = GptSanityCheck g2 := by
  unfold GptSanityCheck; rw [h]

theorem recompute_spec_primary_fail (g : GptData)
    (hbit : g.valid_headers &&& MASK_PRIMARY ≠ 0)
    (hchg : ¬(g.primary_header.alternate_lba = sub64 g.drive_sectors 1 ∧
              g.primary_header.last_usable_lba =
                sub64 (sub64 (sub64 g.drive_sectors 1) GPT_ENTRIES_SECTORS) 1))
    (hfail : (GptSanityCheck (recomputeRewrittenPrimary g)).1 ≠ GPT_SUCCESS ∨
             (GptSanityCheck (recomputeRewrittenPrimary g)).2.valid_headers ≠ MASK_PRIMARY) :
    (GptRecomputeSize g).1 = GPT_ERROR_INVALID_HEADERS ∧
    (GptRecomputeSize g).2.primary_header = g.primary_header ∧
    (GptRecomputeSize g).2.secondary_header = g.secondary_header ∧
    (GptRecomputeSize g).2.primary_entries = g.primary_entries ∧
    (GptRecomputeSize g).2.secondary_entries = g.secondary_entries ∧
    (GptRecomputeSize g).2.modified = g.modified ∧
    (GptRecomputeSize g).2.valid_headers = (GptSanityCheck g).2.valid_headers ∧
    (GptRecomputeSize g).2.valid_entries = (GptSanityCheck g).2.valid_entries := by
  have hred : GptRecomputeSize g =
      (GPT_ERROR_INVALID_HEADERS,
        (GptSanityCheck { (GptSanityCheck (recomputeRewrittenPrimary g)).2 with
          primary_header := g.primary_header }).2) := by
    unfold GptRecomputeSize
    rw [if_pos hbit, if_neg hchg]
    unfold recomputeCheck
    rw [if_pos hfail]
    simp
  rw [hred]
  have hcong : GptSanityCheck { (GptSanityCheck (recomputeRewrittenPrimary g)).2 with
      primary_header := g.primary_header } = GptSanityCheck g := by
    apply GptSanityCheck_congr
    apply GptData_ext <;> simp [sanityReset, recomputeRewrittenPrimary]
  rw [hcong]
  simp

theorem recompute_spec_primary_ok (g : GptData)
    (hbit : g.valid_headers &&& MASK_PRIMARY ≠ 0)
    (hchg : ¬(g.primary_header.alternate_lba = sub64 g.drive_sectors 1 ∧
              g.primary_header.last_usable_lba =
                sub64 (sub64 (sub64 g.drive_sectors 1) GPT_ENTRIES_SECTORS) 1))
    (hok : (GptSanityCheck (recomputeRewrittenPrimary g)).1 = GPT_SUCCESS ∧
           (GptSanityCheck (recomputeRewrittenPrimary g)).2.valid_headers = MASK_PRIMARY) :
    (GptRecomputeSize g).1 = GPT_SUCCESS ∧
    (GptRecomputeSize g).2.modified =
      g.modified ||| (GPT_MODIFIED_HEADER2 ||| GPT_MODIFIED_ENTRIES2) ||| GPT_MODIFIED_HEADER1 := by
  have hred : GptRecomputeSize g =
      (GPT_SUCCESS,
        { (GptSanityCheck (recomputeRewrittenPrimary g)).2 with
          modified := (GptSanityCheck (recomputeRewrittenPrimary g)).2.modified |||
            (GPT_MODIFIED_HEADER2 ||| GPT_MODIFIED_ENTRIES2) ||| GPT_MODIFIED_HEADER1 }) := by
    unfold GptRecomputeSize
    rw [if_pos hbit, if_neg hchg]
    unfold recomputeCheck
    rw [if_neg (by push_neg; exact hok)]
    simp
  rw [hred]
  refine ⟨rfl, ?_⟩
  simp [recomputeRewrittenPrimary]

theorem recompute_spec_secondary_fail (g : GptData)
    (hbit1 : g.valid_headers &&& MASK_PRIMARY = 0)
    (hbit2 : g.valid_headers &&& MASK_SECONDARY ≠ 0)
    (hchg : ¬(g.secondary_header.my_lba = sub64 g.drive_sectors 1 ∧
              g.secondary_header.entries_lba = sub64 (sub64 g.drive_sectors 1) GPT_ENTRIES_SECTORS ∧
              g.secondary_header.last_usable_lba =
                sub64 (sub64 (sub64 g.drive_sectors 1) GPT_ENTRIES_SECTORS) 1))
    (hfail : (GptSanityCheck (recomputeRewrittenSecondary g)).1 ≠ GPT_SUCCESS ∨
             (GptSanityCheck (recomputeRewrittenSecondary g)).2.valid_headers ≠ MASK_SECONDARY) :
    (GptRecomputeSize g).1 = GPT_ERROR_INVALID_HEADERS ∧
    (GptRecomputeSize g).2.primary_header = g.primary_header ∧
    (GptRecomputeSize g).2.secondary_header = g.secondary_header ∧
    (GptRecomputeSize g).2.primary_entries = g.primary_entries ∧
    (GptRecomputeSize g).2.secondary_entries = g.secondary_entries ∧
    (GptRecomputeSize g).2.modified = g.modified ∧
    (GptRecomputeSize g).2.valid_headers = (GptSanityCheck g).2.valid_headers ∧
    (GptRecomputeSize g).2.valid_entries = (GptSanityCheck g).2.valid_entries := by
  have hred : GptRecomputeSize g =
      (GPT_ERROR_INVALID_HEADERS,
        (GptSanityCheck { (GptSanityCheck (recomputeRewrittenSecondary g)).2 with
          secondary_header := g.secondary_header }).2) := by
    unfold GptRecomputeSize
    rw [if_neg (by simp [hbit1]), if_pos hbit2, if_neg hchg]
    unfold recomputeCheck
    rw [if_pos hfail]
    simp
  rw [hred]
  have hcong : GptSanityCheck { (GptSanityCheck (recomputeRewrittenSecondary g)).2 with
      secondary_header := g.secondary_header } = GptSanityCheck g := by
    apply GptSanityCheck_congr
    apply GptData_ext <;> simp [sanityReset, recomputeRewrittenSecondary]
  rw [hcong]
  simp

theorem recompute_spec_secondary_ok (g : GptData)
    (hbit1 : g.valid_headers &&& MASK_PRIMARY = 0)
    (hbit2 : g.valid_headers &&& MASK_SECONDARY ≠ 0)
    (hchg : ¬(g.secondary_header.my_lba = sub64 g.drive_sectors 1 ∧
              g.secondary_header.entries_lba = sub64 (sub64 g.drive_sectors 1) GPT_ENTRIES_SECTORS ∧
              g.secondary_header.last_usable_lba =
                sub64 (sub64 (sub64 g.drive_sectors 1) GPT_ENTRIES_SECTORS) 1))
    (hok : (GptSanityCheck (recomputeRewrittenSecondary g)).1 = GPT_SUCCESS ∧
           (GptSanityCheck (recomputeRewrittenSecondary g)).2.valid_headers = MASK_SECONDARY) :
    (GptRecomputeSize g).1 = GPT_SUCCESS ∧
    (GptRecomputeSize g).2.modified =
      g.modified ||| (GPT_MODIFIED_HEADER2 ||| GPT_MODIFIED_ENTRIES2) := by
  have hred : GptRecomputeSize g =
      (GPT_SUCCESS,
        { (GptSanityCheck (recomputeRewrittenSecondary g)).2 with
          modified := (GptSanityCheck (recomputeRewrittenSecondary g)).2.modified |||
            (GPT_MODIFIED_HEADER2 ||| GPT_MODIFIED_ENTRIES2) ||| 0 }) := by
    unfold GptRecomputeSize
    rw [if_neg (by simp [hbit1]), if_pos hbit2, if_neg hchg]
    unfold recomputeCheck
    rw [if_neg (by push_neg; exact hok)]
    simp
  rw [hred]
  refine ⟨rfl, ?_⟩
  simp [recomputeRewrittenSecondary]

/-- **C7.** Geometry-adaptation rollback atomicity of `GptRecomputeSize`.
When the primary (resp. only the secondary) header is flagged valid and its
geometry fields do not match the drive size, the header is rewritten and the
sanity check rerun.  If that re-check fails or reports a validity mask other
than the rewritten header's, the rewritten header buffer is restored
byte-for-byte, the sanity check is rerun (the final masks are those of the
sanity check of the original image), `GPT_ERROR_INVALID_HEADERS` is returned
and no bits are added to `modified`.  On the success path `modified` gains
`GPT_MODIFIED_HEADER2 ||| GPT_MODIFIED_ENTRIES2` unconditionally, plus
`GPT_MODIFIED_HEADER1` exactly when the primary header was rewritten. -/
theorem GptRecomputeSize_rollback_atomicity :
    (∀ g : GptData,
      g.valid_headers &&& MASK_PRIMARY ≠ 0 →
      ¬(g.primary_header.alternate_lba = sub64 g.drive_sectors 1 ∧
        g.primary_header.last_usable_lba =
          sub64 (sub64 (sub64 g.drive_sectors 1) GPT_ENTRIES_SECTORS) 1) →
      ((GptSanityCheck (recomputeRewrittenPrimary g)).1 ≠ GPT_SUCCESS ∨
       (GptSanityCheck (recomputeRewrittenPrimary g)).2.valid_headers ≠ MASK_PRIMARY) →
      (GptRecomputeSize g).1 = GPT_ERROR_INVALID_HEADERS ∧
      (GptRecomputeSize g).2.primary_header = g.primary_header ∧
      (GptRecomputeSize g).2.secondary_header = g.secondary_header ∧
      (GptRecomputeSize g).2.primary_entries = g.primary_entries ∧
      (GptRecomputeSize g).2.secondary_entries = g.secondary_entries ∧
      (GptRecomputeSize g).2.modified = g.modified ∧
      (GptRecomputeSize g).2.valid_headers = (GptSanityCheck g).2.valid_headers ∧
      (GptRecomputeSize g).2.valid_entries = (GptSanityCheck g).2.valid_entries) ∧
    (∀ g : GptData,
      g.valid_headers &&& MASK_PRIMARY ≠ 0 →
      ¬(g.primary_header.alternate_lba = sub64 g.drive_sectors 1 ∧
        g.primary_header.last_usable_lba =
          sub64 (sub64 (sub64 g.drive_sectors 1) GPT_ENTRIES_SECTORS) 1) →
      ((GptSanityCheck (recomputeRewrittenPrimary g)).1 = GPT_SUCCESS ∧
       (GptSanityCheck (recomputeRewrittenPrimary g)).2.valid_headers = MASK_PRIMARY) →
      (GptRecomputeSize g).1 = GPT_SUCCESS ∧
      (GptRecomputeSize g).2.modified =
        g.modified ||| (GPT_MODIFIED_HEADER2 ||| GPT_MODIFIED_ENTRIES2) |||
          GPT_MODIFIED_HEADER1) ∧
    (∀ g : GptData,
      g.valid_headers &&& MASK_PRIMARY = 0 →
      g.valid_headers &&& MASK_SECONDARY ≠ 0 →
      ¬(g.secondary_header.my_lba = sub64 g.drive_sectors 1 ∧
        g.secondary_header.entries_lba = sub64 (sub64 g.drive_sectors 1) GPT_ENTRIES_SECTORS ∧
        g.secondary_header.last_usable_lba =
          sub64 (sub64 (sub64 g.drive_sectors 1) GPT_ENTRIES_SECTORS) 1) →
      ((GptSanityCheck (recomputeRewrittenSecondary g)).1 ≠ GPT_SUCCESS ∨
       (GptSanityCheck (recomputeRewrittenSecondary g)).2.valid_headers ≠ MASK_SECONDARY) →
      (GptRecomputeSize g).1 = GPT_ERROR_INVALID_HEADERS ∧
      (GptRecomputeSize g).2.primary_header = g.primary_header ∧
      (GptRecomputeSize g).2.secondary_header = g.secondary_header ∧
      (GptRecomputeSize g).2.primary_entries = g.primary_entries ∧
      (GptRecomputeSize g).2.secondary_entries = g.secondary_entries ∧
      (GptRecomputeSize g).2.modified = g.modified ∧
      (GptRecomputeSize g).2.valid_headers = (GptSanityCheck g).2.valid_headers ∧
      (GptRecomputeSize g).2.valid_entries = (GptSanityCheck g).2.valid_entries) ∧
    (∀ g : GptData,
      g.valid_headers &&& MASK_PRIMARY = 0 →
      g.valid_headers &&& MASK_SECONDARY ≠ 0 →
      ¬(g.secondary_header.my_lba = sub64 g.drive_sectors 1 ∧
        g.secondary_header.entries_lba = sub64 (sub64 g.drive_sectors 1) GPT_ENTRIES_SECTORS ∧
        g.secondary_header.last_usable_lba =
          sub64 (sub64 (sub64 g.drive_sectors 1) GPT_ENTRIES_SECTORS) 1) →
      ((GptSanityCheck (recomputeRewrittenSecondary g)).1 = GPT_SUCCESS ∧
       (GptSanityCheck (recomputeRewrittenSecondary g)).2.valid_headers = MASK_SECONDARY) →
      (GptRecomputeSize g).1 = GPT_SUCCESS ∧
      (GptRecomputeSize g).2.modified =
        g.modified ||| (GPT_MODIFIED_HEADER2 ||| GPT_MODIFIED_ENTRIES2)) :=
  ⟨recompute_spec_primary_fail, recompute_spec_primary_ok,
   recompute_spec_secondary_fail, recompute_spec_secondary_ok⟩

theorem GptRecomputeSize_rollback_atomicity_witness :
    (gptZ1.valid_headers &&& MASK_PRIMARY ≠ 0) ∧
    (GptRecomputeSize gptZ1).1 = GPT_ERROR_INVALID_HEADERS ∧
    (GptRecomputeSize gptZ1).2.modified = gptZ1.modified ∧
    (GptRecomputeSize gptZ1).2.primary_header = gptZ1.primary_header :=
  ⟨by decide,
   (GptRecomputeSize_rollback_atomicity.1 gptZ1 (by decide) (by decide) (by decide)).1,
   (GptRecomputeSize_rollback_atomicity.1 gptZ1 (by decide) (by decide) (by decide)).2.2.2.2.2.1,
   (GptRecomputeSize_rollback_atomicity.1 gptZ1 (by decide) (by decide) (by decide)).2.1⟩

/-- Folding the first-nonzero step from any accumulator: a nonzero
accumulator is final, a zero accumulator restarts the scan. -/
theorem firstNonzero_go (l : List α) (f : α → Nat) : ∀ a : Nat,
    List.foldl (fun acc x => if acc ≠ 0 then acc else f x) a l =
      if a ≠ 0 then a else firstNonzero l f := by
  induction l with
  | nil => intro a; by_cases ha : a = 0 <;> simp [firstNonzero, ha]
  | cons x xs ih =>
    intro a
    have hr : firstNonzero (x :: xs) f = if f x ≠ 0 then f x else firstNonzero xs f := by
      show List.foldl _ 0 (x :: xs) = _
      simp only [List.foldl_cons]
      rw [ih]
      simp
    simp only [List.foldl_cons]
    rw [ih, hr]
    by_cases ha : a = 0 <;> by_cases hx : f x = 0 <;> simp [ha, hx]

/-- `firstNonzero` on a cons. -/
theorem firstNonzero_cons (x : α) (xs : List α) (f : α → Nat) :
    firstNonzero (x :: xs) f = if f x ≠ 0 then f x else firstNonzero xs f := by
  show List.foldl _ 0 (x :: xs) = _
  rw [List.foldl_cons, firstNonzero_go]
  by_cases hx : f x = 0 <;> simp [hx]

/-- The scan returns 0 exactly when every element maps to 0. -/
theorem firstNonzero_eq_zero_iff (l : List α) (f : α → Nat) :
    firstNonzero l f = 0 ↔ ∀ x ∈ l, f x = 0 := by
  induction l with
  | nil => simp [firstNonzero]
  | cons x xs ih =>
    rw [firstNonzero_cons]
    by_cases hx : f x = 0 <;> simp [hx, ih]

/-- A nonzero scan result is the value of some element of the list. -/
theorem firstNonzero_exists_cause (l : List α) (f : α → Nat)
    (h : firstNonzero l f ≠ 0) : ∃ x ∈ l, firstNonzero l f = f x := by
  induction l with
  | nil => simp [firstNonzero] at h
  | cons x xs ih =>
    rw [firstNonzero_cons] at h ⊢
    by_cases hx : f x = 0
    · rw [if_neg (by simp [hx])] at h ⊢
      obtain ⟨y, hy, he⟩ := ih h
      exact ⟨y, List.mem_cons_of_mem x hy, he⟩
    · exact ⟨x, List.mem_cons_self x xs, by simp [hx]⟩

/-- C3.  Overlap detection: if the table CRC matches and two distinct used
entries among the scanned ones have intersecting inclusive LBA ranges (a
common point `x`), then `CheckEntries` never returns `GPT_SUCCESS`; if in
addition every scanned used entry lies inside the usable region and the used
entries carry pairwise distinct unique GUIDs, the result is
`START_LBA_OVERLAP` or `END_LBA_OVERLAP`; and for each ordered pair the
checks are made in the order start-overlap, end-overlap, duplicate GUID, with
inclusive range membership selecting the code. -/
theorem CheckEntries_overlap_detection (entries : List Nat) (h : GptHeader)
    (es : List GptEntry)
    (hes : es = (parseEntries entries).take h.number_of_entries)
    (hcrc : crc32 (entries.take (h.size_of_entry * h.number_of_entries % 2 ^ 32)) =
      h.entries_crc32)
    (i j : Nat) (hi : i < es.length) (hj : j < es.length) (hij : i ≠ j)
    (hui : ¬ IsUnusedEntry es[i]) (huj : ¬ IsUnusedEntry es[j])
    (x : Nat)
    (hxi : es[i].starting_lba ≤ x ∧ x ≤ es[i].ending_lba)
    (hxj : es[j].starting_lba ≤ x ∧ x ≤ es[j].ending_lba) :
    CheckEntries entries h ≠ GPT_SUCCESS ∧
    ((∀ k (hk : k < es.length), ¬ IsUnusedEntry es[k] →
        h.first_usable_lba ≤ es[k].starting_lba ∧
        es[k].ending_lba ≤ h.last_usable_lba ∧
        es[k].starting_lba ≤ es[k].ending_lba) →
      (∀ k m (hk : k < es.length) (hm : m < es.length), k ≠ m →
        ¬ IsUnusedEntry es[k] → ¬ IsUnusedEntry es[m] →
        es[k].unique ≠ es[m].unique) →
      CheckEntries entries h = GPT_ERROR_START_LBA_OVERLAP ∨
      CheckEntries entries h = GPT_ERROR_END_LBA_OVERLAP) ∧
    (∀ e i2 p, ¬ (p.1 = i2 ∨ IsUnusedEntry p.2) →
      checkEntryPair e i2 p =
        if e.starting_lba ≥ p.2.starting_lba ∧ e.starting_lba ≤ p.2.ending_lba then
          GPT_ERROR_START_LBA_OVERLAP
        else if e.ending_lba ≥ p.2.starting_lba ∧ e.ending_lba ≤ p.2.ending_lba then
          GPT_ERROR_END_LBA_OVERLAP
        else if e.unique = p.2.unique then GPT_ERROR_DUP_GUID
        else 0) := by
  have hce : CheckEntries entries h = firstNonzero es.enum (checkOneEntry es h) := by
    simp only [CheckEntries]
    rw [if_neg (show ¬ crc32 (entries.take (h.size_of_entry * h.number_of_entries % 2 ^ 32)) ≠
      h.entries_crc32 from fun hne => hne hcrc), ← hes]
  have hnz : CheckEntries entries h ≠ GPT_SUCCESS := by
    rw [hce]
    intro h0
    have hall := List.forall_mem_enum.mp ((firstNonzero_eq_zero_iff _ _).mp h0)
    have hA := hall i hi
    have hB := hall j hj
    simp only [checkOneEntry] at hA hB
    rw [if_neg hui] at hA
    rw [if_neg huj] at hB
    by_cases hoA : es[i].starting_lba < h.first_usable_lba ∨
        es[i].ending_lba > h.last_usable_lba ∨ es[i].ending_lba < es[i].starting_lba
    · rw [if_pos hoA] at hA
      exact absurd hA (by decide)
    by_cases hoB : es[j].starting_lba < h.first_usable_lba ∨
        es[j].ending_lba > h.last_usable_lba ∨ es[j].ending_lba < es[j].starting_lba
    · rw [if_pos hoB] at hB
      exact absurd hB (by decide)
    rw [if_neg hoA] at hA
    rw [if_neg hoB] at hB
    have hpA := List.forall_mem_enum.mp ((firstNonzero_eq_zero_iff _ _).mp hA) j hj
    have hpB := List.forall_mem_enum.mp ((firstNonzero_eq_zero_iff _ _).mp hB) i hi
    simp only [checkEntryPair] at hpA hpB
    rw [if_neg (by push_neg; exact ⟨Ne.symm hij, huj⟩)] at hpA
    rw [if_neg (by push_neg; exact ⟨hij, hui⟩)] at hpB
    have hns1 : ¬ (es[i].starting_lba ≥ es[j].starting_lba ∧
        es[i].starting_lba ≤ es[j].ending_lba) := by
      intro hc
      rw [if_pos hc] at hpA
      exact absurd hpA (by decide)
    have hns2 : ¬ (es[j].starting_lba ≥ es[i].starting_lba ∧
        es[j].starting_lba ≤ es[i].ending_lba) := by
      intro hc
      rw [if_pos hc] at hpB
      exact absurd hpB (by decide)
    omega
  refine ⟨hnz, fun hreg hguid => ?_, fun e i2 p hp => ?_⟩
  · have hne : firstNonzero es.enum (checkOneEntry es h) ≠ 0 := by
      rw [hce] at hnz; exact hnz
    have hex : ∃ q ∈ es.enum,
        firstNonzero es.enum (checkOneEntry es h) = checkOneEntry es h q :=
      firstNonzero_exists_cause _ _ hne
    obtain ⟨k, hk, hrk⟩ := List.exists_mem_enum.mp hex
    rw [hce]
    simp only [checkOneEntry] at hrk
    by_cases hu : IsUnusedEntry es[k]
    · rw [if_pos hu] at hrk
      exact absurd hrk hne
    rw [if_neg hu] at hrk
    by_cases hoor : es[k].starting_lba < h.first_usable_lba ∨
        es[k].ending_lba > h.last_usable_lba ∨ es[k].ending_lba < es[k].starting_lba
    · have := hreg k hk hu
      omega
    rw [if_neg hoor] at hrk
    have hne2 : firstNonzero es.enum (checkEntryPair es[k] k) ≠ 0 := by
      rw [← hrk]; exact hne
    have hex2 : ∃ q ∈ es.enum,
        firstNonzero es.enum (checkEntryPair es[k] k) = checkEntryPair es[k] k q :=
      firstNonzero_exists_cause _ _ hne2
    obtain ⟨m, hm, hrm⟩ := List.exists_mem_enum.mp hex2
    rw [hrm] at hrk
    simp only [checkEntryPair] at hrk
    by_cases hskip : m = k ∨ IsUnusedEntry es[m]
    · rw [if_pos hskip] at hrk
      exact absurd hrk hne
    rw [if_neg hskip] at hrk
    push_neg at hskip
    by_cases h1 : es[k].starting_lba ≥ es[m].starting_lba ∧
        es[k].starting_lba ≤ es[m].ending_lba
    · rw [if_pos h1] at hrk
      exact Or.inl hrk
    rw [if_neg h1] at hrk
    by_cases h2 : es[k].ending_lba ≥ es[m].starting_lba ∧
        es[k].ending_lba ≤ es[m].ending_lba
    · rw [if_pos h2] at hrk
      exact Or.inr hrk
    rw [if_neg h2] at hrk
    by_cases h3 : es[k].unique = es[m].unique
    · exact absurd h3 (hguid k m hk hm (Ne.symm hskip.1) hu hskip.2)
    rw [if_neg h3] at hrk
    exact absurd hrk hne
  · simp only [checkEntryPair]
    rw [if_neg hp]

/-- C3 witness: the overlap theorem applied to a concrete two-entry table
with intersecting used entries. -/
theorem CheckEntries_overlap_detection_witness :
    CheckEntries ovTableW ovHdrW ≠ GPT_SUCCESS :=
  (CheckEntries_overlap_detection ovTableW ovHdrW
    ((parseEntries ovTableW).take ovHdrW.number_of_entries) rfl
    (by rw [show ovTableW.take (ovHdrW.size_of_entry * ovHdrW.number_of_entries % 2 ^ 32) =
          ovTableW from by decide]; rfl)
    0 1 (by decide) (by decide) (by decide) (by decide) (by decide)
    150 (by decide) (by decide)).1

/-- C3 counterexample: the CRC matches and entries 1 and 2 are used with
intersecting ranges, yet `CheckEntries` returns `OUT_OF_REGION` (entry 0
starts below the usable region), not a `*_LBA_OVERLAP` code. -/
theorem CheckEntries_overlap_counterexample :
    crc32 (ovTableC.take (ovHdrC.size_of_entry * ovHdrC.number_of_entries % 2 ^ 32)) =
      ovHdrC.entries_crc32 ∧
    ((parseEntries ovTableC).take 3).length = 3 ∧
    ¬ IsUnusedEntry (ovEntC 1) ∧ ¬ IsUnusedEntry (ovEntC 2) ∧
    (ovEntC 1).starting_lba ≤ 150 ∧ 150 ≤ (ovEntC 1).ending_lba ∧
    (ovEntC 2).starting_lba ≤ 150 ∧ 150 ≤ (ovEntC 2).ending_lba ∧
    CheckEntries ovTableC ovHdrC = GPT_ERROR_OUT_OF_REGION := by
  have hcrc : crc32 (ovTableC.take (ovHdrC.size_of_entry * ovHdrC.number_of_entries % 2 ^ 32)) =
      ovHdrC.entries_crc32 := by
    rw [show ovTableC.take (ovHdrC.size_of_entry * ovHdrC.number_of_entries % 2 ^ 32) =
      ovTableC from by decide]
    rfl
  refine ⟨hcrc, by decide, by decide, by decide, by decide, by decide, by decide,
    by decide, ?_⟩
  simp only [CheckEntries]
  rw [if_neg (show ¬ crc32 (ovTableC.take (ovHdrC.size_of_entry * ovHdrC.number_of_entries % 2 ^ 32)) ≠
    ovHdrC.entries_crc32 from fun hne => hne hcrc)]
  decide

/-- `repairEntries` never touches `valid_headers`. -/
theorem repairEntries_valid_headers (x : GptData) :
    (repairEntries x).valid_headers = x.valid_headers := by
  unfold repairEntries; split_ifs <;> rfl

/-- When `GptRecomputeSize` does not return `GPT_SUCCESS` it leaves both
header records and both entry buffers exactly as they were (rollback, or no
write at all). -/
theorem GptRecomputeSize_fail_buffers (g : GptData)
    (hf : (GptRecomputeSize g).1 ≠ GPT_SUCCESS) :
    (GptRecomputeSize g).2.primary_header = g.primary_header ∧
    (GptRecomputeSize g).2.secondary_header = g.secondary_header ∧
    (GptRecomputeSize g).2.primary_entries = g.primary_entries ∧
    (GptRecomputeSize g).2.secondary_entries = g.secondary_entries := by
  by_cases hbit : g.valid_headers &&& MASK_PRIMARY ≠ 0
  · by_cases hchg : g.primary_header.alternate_lba = sub64 g.drive_sectors 1 ∧
        g.primary_header.last_usable_lba =
          sub64 (sub64 (sub64 g.drive_sectors 1) GPT_ENTRIES_SECTORS) 1
    · exfalso; apply hf
      unfold GptRecomputeSize
      rw [if_pos hbit, if_pos hchg]
    by_cases hfail : (GptSanityCheck (recomputeRewrittenPrimary g)).1 ≠ GPT_SUCCESS ∨
        (GptSanityCheck (recomputeRewrittenPrimary g)).2.valid_headers ≠ MASK_PRIMARY
    · have hsp := recompute_spec_primary_fail g hbit hchg hfail
      exact ⟨hsp.2.1, hsp.2.2.1, hsp.2.2.2.1, hsp.2.2.2.2.1⟩
    · push_neg at hfail
      exact absurd (recompute_spec_primary_ok g hbit hchg hfail).1 hf
  · by_cases hbit2 : g.valid_headers &&& MASK_SECONDARY ≠ 0
    · by_cases hchg : g.secondary_header.my_lba = sub64 g.drive_sectors 1 ∧
          g.secondary_header.entries_lba = sub64 (sub64 g.drive_sectors 1) GPT_ENTRIES_SECTORS ∧
          g.secondary_header.last_usable_lba =
            sub64 (sub64 (sub64 g.drive_sectors 1) GPT_ENTRIES_SECTORS) 1
      · exfalso; apply hf
        unfold GptRecomputeSize
        rw [if_neg hbit, if_pos hbit2, if_pos hchg]
      by_cases hfail : (GptSanityCheck (recomputeRewrittenSecondary g)).1 ≠ GPT_SUCCESS ∨
          (GptSanityCheck (recomputeRewrittenSecondary g)).2.valid_headers ≠ MASK_SECONDARY
      · have hsp := recompute_spec_secondary_fail g (by push_neg at hbit; exact hbit)
          hbit2 hchg hfail
        exact ⟨hsp.2.1, hsp.2.2.1, hsp.2.2.2.1, hsp.2.2.2.2.1⟩
      · push_neg at hfail
        exact absurd (recompute_spec_secondary_ok g (by push_neg at hbit; exact hbit)
          hbit2 hchg hfail).1 hf
    · have hred : GptRecomputeSize g = (GPT_ERROR_INVALID_HEADERS, g) := by
        unfold GptRecomputeSize
        rw [if_neg hbit, if_neg hbit2]
      rw [hred]
      exact ⟨rfl, rfl, rfl, rfl⟩

/-- **C8.**  All-or-nothing for `GptRepair`: for every `GptData`, the call
either ends with `valid_headers = valid_entries = MASK_BOTH`, or leaves both
header records and both entry buffers byte-identical to their values before
the call.  (`GptModified` does not satisfy this: it rewrites the primary
header's CRCs before invoking the repair, see the counterexample.) -/
theorem GptRepair_all_or_nothing (g : GptData) :
    ((GptRepair g).valid_headers = MASK_BOTH ∧ (GptRepair g).valid_entries = MASK_BOTH) ∨
    ((GptRepair g).primary_header = g.primary_header ∧
     (GptRepair g).secondary_header = g.secondary_header ∧
     (GptRepair g).primary_entries = g.primary_entries ∧
     (GptRepair g).secondary_entries = g.secondary_entries) := by
  by_cases h0 : g.valid_headers = MASK_NONE ∨ g.valid_entries = MASK_NONE
  · right
    unfold GptRepair
    rw [if_pos h0]
    exact ⟨rfl, rfl, rfl, rfl⟩
  by_cases hrc : (GptRecomputeSize g).1 ≠ GPT_SUCCESS
  · right
    have hb := GptRecomputeSize_fail_buffers g hrc
    unfold GptRepair
    rw [if_neg h0, if_pos hrc]
    exact hb
  · left
    unfold GptRepair
    rw [if_neg h0, if_neg hrc]
    refine ⟨?_, rfl⟩
    show (repairEntries _).valid_headers = MASK_BOTH
    rw [repairEntries_valid_headers]

/-- C8 counterexample: `GptModified` on `gptM` neither converges to
`MASK_BOTH` masks nor leaves the buffers alone — the primary header's
`entries_crc32` has been rewritten even though the repair failed. -/
theorem GptModified_not_all_or_nothing :
    ¬ ((GptModified gptM).valid_headers = MASK_BOTH ∧
       (GptModified gptM).valid_entries = MASK_BOTH) ∧
    (GptModified gptM).primary_header ≠ gptM.primary_header := by
  decide

/-- `CheckParameters` reads only the geometry, which `sanityReset` keeps. -/
theorem CheckParameters_sanityReset (g : GptData) :
    CheckParameters (sanityReset g) = CheckParameters g := rfl

/-- A table that passes `CheckEntries` has the stored CRC. -/
theorem CheckEntries_zero_crc (entries : List Nat) (h : GptHeader)
    (hz : CheckEntries entries h = 0) :
    crc32 (entries.take (h.size_of_entry * h.number_of_entries % 2 ^ 32)) =
      h.entries_crc32 := by
  by_cases hc : crc32 (entries.take (h.size_of_entry * h.number_of_entries % 2 ^ 32)) ≠
      h.entries_crc32
  · exfalso
    unfold CheckEntries at hz
    rw [if_pos hc] at hz
    exact absurd hz (by decide)
  · push_neg at hc; exact hc

/-- With a matching CRC, `CheckEntries` is the region/overlap scan. -/
theorem CheckEntries_eq_scan (entries : List Nat) (h : GptHeader)
    (hcrc : crc32 (entries.take (h.size_of_entry * h.number_of_entries % 2 ^ 32)) =
      h.entries_crc32) :
    CheckEntries entries h =
      firstNonzero ((parseEntries entries).take h.number_of_entries).enum
        (checkOneEntry ((parseEntries entries).take h.number_of_entries) h) := by
  simp only [CheckEntries]
  rw [if_neg (show ¬ crc32 (entries.take (h.size_of_entry * h.number_of_entries % 2 ^ 32)) ≠
    h.entries_crc32 from fun hne => hne hcrc)]

/-- Headers whose `entries_crc32` differ never compare field-equal. -/
theorem HeaderFieldsSame_ne_of_crc (h1 h2 : GptHeader)
    (hne : h1.entries_crc32 ≠ h2.entries_crc32) : HeaderFieldsSame h1 h2 ≠ 0 := by
  unfold HeaderFieldsSame
  split_ifs <;> simp_all

/-- The cross-retry path of `GptSanityCheck`: both headers valid, no entry
table passes under the primary (the good header), some table passes under the
secondary: the scan succeeds with `valid_headers = MASK_SECONDARY` and the
entry bits re-validated against the secondary header. -/
theorem sanity_cross_spec (g : GptData)
    (hp : CheckParameters g = GPT_SUCCESS)
    (hh1 : CheckHeader g.primary_header false g.drive_sectors = 0)
    (hh2 : CheckHeader g.secondary_header true g.drive_sectors = 0)
    (he1 : CheckEntries g.primary_entries g.primary_header ≠ 0)
    (he2 : CheckEntries g.secondary_entries g.primary_header ≠ 0)
    (hs : CheckEntries g.primary_entries g.secondary_header = 0 ∨
          CheckEntries g.secondary_entries g.secondary_header = 0) :
    (GptSanityCheck g).1 = GPT_SUCCESS ∧
    (GptSanityCheck g).2.valid_headers = MASK_SECONDARY ∧
    (GptSanityCheck g).2.valid_entries =
      (if CheckEntries g.primary_entries g.secondary_header = 0 then MASK_PRIMARY else 0) +
      (if CheckEntries g.secondary_entries g.secondary_header = 0 then MASK_SECONDARY else 0) := by
  have hmask : sanityHeaderMask (sanityReset g) = MASK_BOTH := by
    unfold sanityHeaderMask
    simp only [sanityReset_primary_header, sanityReset_secondary_header,
      sanityReset_drive_sectors]
    rw [if_pos hh1, if_pos hh2]
    decide
  have hgood : sanityGoodHdr (sanityReset g) = g.primary_header := by
    unfold sanityGoodHdr
    simp only [sanityReset_primary_header, sanityReset_drive_sectors]
    rw [if_pos hh1]
  have hm0 : sanityEntriesMask (sanityReset g) (sanityGoodHdr (sanityReset g)) = MASK_NONE := by
    rw [hgood]
    unfold sanityEntriesMask
    simp only [sanityReset_primary_entries, sanityReset_secondary_entries]
    rw [if_neg he1, if_neg he2]
  have hcross : sanityCross (sanityReset g) := ⟨hmask, hm0⟩
  have hve2 : sanityVe2 (sanityReset g) =
      (if CheckEntries g.primary_entries g.secondary_header = 0 then MASK_PRIMARY else 0) +
      (if CheckEntries g.secondary_entries g.secondary_header = 0 then MASK_SECONDARY else 0) := by
    unfold sanityVe2
    rw [if_pos hcross]
    unfold sanityEntriesMask
    simp only [sanityReset_primary_entries, sanityReset_secondary_entries,
      sanityReset_secondary_header]
  have hvne : sanityVe2 (sanityReset g) ≠ MASK_NONE := by
    rw [hve2]
    rcases hs with h | h <;> split_ifs <;> simp_all
  have hvh2 : sanityVh2 (sanityReset g) = MASK_SECONDARY := by
    unfold sanityVh2
    rw [if_pos ⟨hcross, hvne⟩, hmask]
    decide
  have hvh3 : sanityVh3 (sanityReset g) = MASK_SECONDARY := by
    unfold sanityVh3
    rw [hvh2, if_neg (fun hc => absurd hc.1 (by decide))]
  unfold GptSanityCheck
  rw [if_neg (show ¬ CheckParameters (sanityReset g) ≠ GPT_SUCCESS from
        fun hne => hne (by rw [CheckParameters_sanityReset]; exact hp)),
      if_neg (show ¬ sanityHeaderMask (sanityReset g) = MASK_NONE from by
        rw [hmask]; decide),
      if_neg hvne]
  exact ⟨rfl, hvh3, hve2⟩

/-- The divergent-pair path of `GptSanityCheck`: both headers valid, each
entry table self-consistent under its own header, same entry geometry but
different stored entry CRCs: the primary table is the one kept
(`valid_entries = MASK_PRIMARY`) and the secondary header bit is cleared by
the field comparison (`valid_headers = MASK_PRIMARY`). -/
theorem sanity_divergence_spec (g : GptData)
    (hp : CheckParameters g = GPT_SUCCESS)
    (hh1 : CheckHeader g.primary_header false g.drive_sectors = 0)
    (hh2 : CheckHeader g.secondary_header true g.drive_sectors = 0)
    (he1 : CheckEntries g.primary_entries g.primary_header = 0)
    (he2 : CheckEntries g.secondary_entries g.secondary_header = 0)
    (hnoe : g.primary_header.number_of_entries = g.secondary_header.number_of_entries)
    (hsoe : g.primary_header.size_of_entry = g.secondary_header.size_of_entry)
    (hcrcne : g.primary_header.entries_crc32 ≠ g.secondary_header.entries_crc32) :
    (GptSanityCheck g).1 = GPT_SUCCESS ∧
    (GptSanityCheck g).2.valid_headers = MASK_PRIMARY ∧
    (GptSanityCheck g).2.valid_entries = MASK_PRIMARY := by
  have he2f : CheckEntries g.secondary_entries g.primary_header ≠ 0 := by
    intro hz
    have hc1 := CheckEntries_zero_crc _ _ hz
    have hc2 := CheckEntries_zero_crc _ _ he2
    rw [hnoe, hsoe] at hc1
    exact hcrcne (hc1.symm.trans hc2)
  have hmask : sanityHeaderMask (sanityReset g) = MASK_BOTH := by
    unfold sanityHeaderMask
    simp only [sanityReset_primary_header, sanityReset_secondary_header,
      sanityReset_drive_sectors]
    rw [if_pos hh1, if_pos hh2]
    decide
  have hgood : sanityGoodHdr (sanityReset g) = g.primary_header := by
    unfold sanityGoodHdr
    simp only [sanityReset_primary_header, sanityReset_drive_sectors]
    rw [if_pos hh1]
  have hem : sanityEntriesMask (sanityReset g) (sanityGoodHdr (sanityReset g)) = MASK_PRIMARY := by
    rw [hgood]
    unfold sanityEntriesMask
    simp only [sanityReset_primary_entries, sanityReset_secondary_entries]
    rw [if_pos he1, if_neg he2f]
  have hnc : ¬ sanityCross (sanityReset g) :=
    fun hc => absurd (hem.symm.trans hc.2) (by decide)
  have hve2 : sanityVe2 (sanityReset g) = MASK_PRIMARY := by
    unfold sanityVe2
    rw [if_neg hnc]
    exact hem
  have hvne : sanityVe2 (sanityReset g) ≠ MASK_NONE := by
    rw [hve2]; decide
  have hvh2 : sanityVh2 (sanityReset g) = MASK_BOTH := by
    unfold sanityVh2
    rw [if_neg (fun hc => hnc hc.1)]
    exact hmask
  have hvh3 : sanityVh3 (sanityReset g) = MASK_PRIMARY := by
    unfold sanityVh3
    simp only [sanityReset_primary_header, sanityReset_secondary_header]
    rw [hvh2, if_pos ⟨rfl, HeaderFieldsSame_ne_of_crc _ _ hcrcne⟩]
    decide
  unfold GptSanityCheck
  rw [if_neg (show ¬ CheckParameters (sanityReset g) ≠ GPT_SUCCESS from
        fun hne => hne (by rw [CheckParameters_sanityReset]; exact hp)),
      if_neg (show ¬ sanityHeaderMask (sanityReset g) = MASK_NONE from by
        rw [hmask]; decide),
      if_neg hvne]
  exact ⟨rfl, hvh3, hve2⟩

/-- **C2.** Divergence resolution.  With valid parameters and both headers
valid: (cross-retry) if neither entry table passes under the primary header
(the good header) but some table passes under the secondary header, the scan
returns `GPT_SUCCESS` with `valid_headers = MASK_SECONDARY` (`MASK_PRIMARY`
cleared) and `valid_entries` re-validated against the secondary header;
(divergent self-consistent pair) if each table is self-consistent under its
own header with equal entry geometry but different stored entry CRCs, the
outcome is `valid_entries = MASK_PRIMARY` and `valid_headers = MASK_PRIMARY`
— not, as claimed, `valid_entries = MASK_SECONDARY` with `MASK_PRIMARY`
cleared from `valid_headers`. -/
theorem GptSanityCheck_divergence (g : GptData)
    (hp : CheckParameters g = GPT_SUCCESS)
    (hh1 : CheckHeader g.primary_header false g.drive_sectors = 0)
    (hh2 : CheckHeader g.secondary_header true g.drive_sectors = 0) :
    ((CheckEntries g.primary_entries g.primary_header ≠ 0) →
     (CheckEntries g.secondary_entries g.primary_header ≠ 0) →
     (CheckEntries g.primary_entries g.secondary_header = 0 ∨
      CheckEntries g.secondary_entries g.secondary_header = 0) →
      (GptSanityCheck g).1 = GPT_SUCCESS ∧
      (GptSanityCheck g).2.valid_headers = MASK_SECONDARY ∧
      (GptSanityCheck g).2.valid_entries =
        (if CheckEntries g.primary_entries g.secondary_header = 0 then MASK_PRIMARY else 0) +
        (if CheckEntries g.secondary_entries g.secondary_header = 0 then MASK_SECONDARY else 0)) ∧
    ((CheckEntries g.primary_entries g.primary_header = 0) →
     (CheckEntries g.secondary_entries g.secondary_header = 0) →
     g.primary_header.number_of_entries = g.secondary_header.number_of_entries →
     g.primary_header.size_of_entry = g.secondary_header.size_of_entry →
     g.primary_header.entries_crc32 ≠ g.secondary_header.entries_crc32 →
      (GptSanityCheck g).1 = GPT_SUCCESS ∧
      (GptSanityCheck g).2.valid_headers = MASK_PRIMARY ∧
      (GptSanityCheck g).2.valid_entries = MASK_PRIMARY) :=
  ⟨fun he1 he2 hs => sanity_cross_spec g hp hh1 hh2 he1 he2 hs,
   fun he1 he2 hnoe hsoe hne => sanity_divergence_spec g hp hh1 hh2 he1 he2 hnoe hsoe hne⟩

/-- The concrete primary header `hdrDP` is valid for the 100-sector drive. -/
theorem hdrDP_ok : CheckHeader hdrDP false 100 = 0 :=
  (CheckHeader_characterization hdrDP false 100 (by decide) (by decide)).mpr
    ⟨by decide, by decide, by decide, by decide, HeaderCrc_setHeaderCrc _,
     by decide, by decide, by decide, by decide, by decide, by decide,
     by decide, by decide, by decide⟩

/-- The concrete secondary header `hdrDS` is valid for the 100-sector drive. -/
theorem hdrDS_ok : CheckHeader hdrDS true 100 = 0 :=
  (CheckHeader_characterization hdrDS true 100 (by decide) (by decide)).mpr
    ⟨by decide, by decide, by decide, by decide, HeaderCrc_setHeaderCrc _,
     by decide, by decide, by decide, by decide, by decide, by decide,
     by decide, by decide, by decide⟩

/-- `tableD1` is self-consistent under `hdrDP`. -/
theorem tableD1_ok : CheckEntries tableD1 hdrDP = 0 := by
  rw [CheckEntries_eq_scan tableD1 hdrDP (by
    rw [show tableD1.take (hdrDP.size_of_entry * hdrDP.number_of_entries % 2 ^ 32) =
      tableD1 from by decide]; rfl)]
  decide

/-- `tableD2` is self-consistent under `hdrDS`. -/
theorem tableD2_ok : CheckEntries tableD2 hdrDS = 0 := by
  rw [CheckEntries_eq_scan tableD2 hdrDS (by
    rw [show tableD2.take (hdrDS.size_of_entry * hdrDS.number_of_entries % 2 ^ 32) =
      tableD2 from by decide]; rfl)]
  decide

/-- C2 witness: the divergence theorem applied to the concrete valid pair
`gptDiv` with self-consistent but divergent entry tables. -/
theorem GptSanityCheck_divergence_witness :
    (GptSanityCheck gptDiv).1 = GPT_SUCCESS ∧
    (GptSanityCheck gptDiv).2.valid_headers = MASK_PRIMARY ∧
    (GptSanityCheck gptDiv).2.valid_entries = MASK_PRIMARY :=
  (GptSanityCheck_divergence gptDiv (by decide) hdrDP_ok hdrDS_ok).2
    tableD1_ok tableD2_ok (by decide) (by decide) (by decide)

/-- C2 counterexample: on `gptDiv` — a valid pair, each table self-consistent
under its own header, tables byte-different — the outcome is
`valid_entries = MASK_PRIMARY` with the SECONDARY bit cleared from
`valid_headers`, contradicting the claimed `valid_entries = MASK_SECONDARY`
with PRIMARY cleared. -/
theorem GptSanityCheck_divergence_counterexample :
    CheckHeader gptDiv.primary_header false gptDiv.drive_sectors = 0 ∧
    CheckHeader gptDiv.secondary_header true gptDiv.drive_sectors = 0 ∧
    CheckEntries gptDiv.primary_entries gptDiv.primary_header = 0 ∧
    CheckEntries gptDiv.secondary_entries gptDiv.secondary_header = 0 ∧
    gptDiv.primary_entries ≠ gptDiv.secondary_entries ∧
    (GptSanityCheck gptDiv).1 = GPT_SUCCESS ∧
    (GptSanityCheck gptDiv).2.valid_entries ≠ MASK_SECONDARY ∧
    (GptSanityCheck gptDiv).2.valid_headers &&& MASK_PRIMARY ≠ 0 ∧
    (GptSanityCheck gptDiv).2.valid_entries = MASK_PRIMARY ∧
    (GptSanityCheck gptDiv).2.valid_headers = MASK_PRIMARY := by
  have hs := sanity_divergence_spec gptDiv (by decide) hdrDP_ok hdrDS_ok
    tableD1_ok tableD2_ok (by decide) (by decide) (by decide)
  refine ⟨hdrDP_ok, hdrDS_ok, tableD1_ok, tableD2_ok, by decide, hs.1, ?_, ?_, hs.2.2, hs.2.1⟩
  · rw [hs.2.2]; decide
  · rw [hs.2.1]; decide

/-- `GptModified` is `GptRepair` of the rewritten-in-place state. -/
theorem GptModified_eq_repair (g : GptData) :
    GptModified g = GptRepair (gptModifiedPre g) := rfl

/-- `Inv` never looks at `modified`. -/
theorem Inv_set_modified (x : GptData) (m : Nat) :
    Inv { x with modified := m } ↔ Inv x := Iff.rfl

/-- `goodHeader` of a record with rewritten masks. -/
theorem goodHeader_mk (x : GptData) (vh ve : Nat) :
    goodHeader { x with valid_headers := vh, valid_entries := ve } =
      if vh = MASK_SECONDARY then x.secondary_header else x.primary_header := rfl

/-- What passing `CheckParameters` says about the geometry. -/
theorem CheckParameters_ds (g : GptData) (hp : CheckParameters g = GPT_SUCCESS) :
    g.sector_bytes = 512 ∧ 67 ≤ g.drive_sectors := by
  unfold CheckParameters at hp
  by_cases h1 : g.sector_bytes ≠ 512
  · rw [if_pos h1] at hp; exact absurd hp (by decide)
  rw [if_neg h1] at hp
  by_cases h2 : g.drive_sectors < 1 + 2 * (1 + GPT_ENTRIES_SECTORS)
  · rw [if_pos h2] at hp; exact absurd hp (by decide)
  push_neg at h1 h2
  refine ⟨h1, ?_⟩
  simp only [GPT_ENTRIES_SECTORS] at h2
  omega

/-- A memcpy of `n` bytes between buffers no longer than `n` replaces the
destination with the source. -/
theorem memcpyBytes_full (dst src : List Nat) (n : Nat)
    (hs : src.length ≤ n) (hd : dst.length ≤ n) : memcpyBytes dst src n = src := by
  unfold memcpyBytes
  rw [List.take_of_length_le hs, List.drop_eq_nil_of_le hd, List.append_nil]

@[simp] theorem repairHeaders_sector_bytes (x : GptData) :
    (repairHeaders x).sector_bytes = x.sector_bytes := by
  unfold repairHeaders; split_ifs <;> rfl

@[simp] theorem repairHeaders_drive_sectors (x : GptData) :
    (repairHeaders x).drive_sectors = x.drive_sectors := by
  unfold repairHeaders; split_ifs <;> rfl

@[simp] theorem repairHeaders_primary_entries (x : GptData) :
    (repairHeaders x).primary_entries = x.primary_entries := by
  unfold repairHeaders; split_ifs <;> rfl

@[simp] theorem repairHeaders_secondary_entries (x : GptData) :
    (repairHeaders x).secondary_entries = x.secondary_entries := by
  unfold repairHeaders; split_ifs <;> rfl

@[simp] theorem repairHeaders_valid_entries (x : GptData) :
    (repairHeaders x).valid_entries = x.valid_entries := by
  unfold repairHeaders; split_ifs <;> rfl

@[simp] theorem repairEntries_sector_bytes (x : GptData) :
    (repairEntries x).sector_bytes = x.sector_bytes := by
  unfold repairEntries; split_ifs <;> rfl

@[simp] theorem repairEntries_drive_sectors (x : GptData) :
    (repairEntries x).drive_sectors = x.drive_sectors := by
  unfold repairEntries; split_ifs <;> rfl

@[simp] theorem repairEntries_primary_header (x : GptData) :
    (repairEntries x).primary_header = x.primary_header := by
  unfold repairEntries; split_ifs <;> rfl

@[simp] theorem repairEntries_secondary_header (x : GptData) :
    (repairEntries x).secondary_header = x.secondary_header := by
  unfold repairEntries; split_ifs <;> rfl

/-- `CheckEntries` reads only five header fields: entry geometry, stored
entry CRC and the usable region. -/
theorem CheckEntries_fields_congr (e : List Nat) (h1 h2 : GptHeader)
    (hsoe : h1.size_of_entry = h2.size_of_entry)
    (hnoe : h1.number_of_entries = h2.number_of_entries)
    (hecrc : h1.entries_crc32 = h2.entries_crc32)
    (hfu : h1.first_usable_lba = h2.first_usable_lba)
    (hlu : h1.last_usable_lba = h2.last_usable_lba) :
    CheckEntries e h1 = CheckEntries e h2 := by
  simp only [CheckEntries]
  rw [hsoe, hnoe, hecrc]
  have hone : checkOneEntry ((parseEntries e).take h2.number_of_entries) h1 =
      checkOneEntry ((parseEntries e).take h2.number_of_entries) h2 := by
    funext p
    unfold checkOneEntry
    rw [hfu, hlu]
  rw [hone]

/-- The secondary header rebuilt from a valid primary compares field-equal
with it: the ten compared fields are copied. -/
theorem HeaderFieldsSame_rebuildSecondary (g : GptData) :
    HeaderFieldsSame g.primary_header (rebuildSecondaryHeader g) = 0 := by
  unfold HeaderFieldsSame
  rw [if_neg (fun hc => hc rfl), if_neg (fun hc => hc rfl), if_neg (fun hc => hc rfl),
      if_neg (fun hc => hc rfl), if_neg (fun hc => hc rfl), if_neg (fun hc => hc rfl),
      if_neg (fun hc => hc rfl), if_neg (fun hc => hc rfl), if_neg (fun hc => hc rfl),
      if_neg (fun hc => hc rfl)]

/-- The primary header rebuilt from a valid secondary compares field-equal
with it. -/
theorem HeaderFieldsSame_rebuildPrimary (g : GptData) :
    HeaderFieldsSame (rebuildPrimaryHeader g) g.secondary_header = 0 := by
  unfold HeaderFieldsSame
  rw [if_neg (fun hc => hc rfl), if_neg (fun hc => hc rfl), if_neg (fun hc => hc rfl),
      if_neg (fun hc => hc rfl), if_neg (fun hc => hc rfl), if_neg (fun hc => hc rfl),
      if_neg (fun hc => hc rfl), if_neg (fun hc => hc rfl), if_neg (fun hc => hc rfl),
      if_neg (fun hc => hc rfl)]

/-- Rebuilding the secondary header from a valid primary yields a valid
secondary header. -/
theorem rebuildSecondaryHeader_ok (g : GptData)
    (hlo : 33 ≤ g.drive_sectors) (hhi : g.drive_sectors < 2 ^ 64)
    (hh1 : CheckHeader g.primary_header false g.drive_sectors = 0) :
    CheckHeader (rebuildSecondaryHeader g) true g.drive_sectors = 0 := by
  obtain ⟨hsig, hrev, hsz1, hsz2, _, hres, hsoe, hn1, hn2, hprod, _, hfu, hlu, hfl⟩ :=
    (CheckHeader_characterization _ false _ hlo hhi).mp hh1
  have hml : (rebuildSecondaryHeader g).my_lba = g.drive_sectors - 1 :=
    sub64_eq_sub _ _ (by omega) hhi (by norm_num)
  refine (CheckHeader_characterization _ true _ hlo hhi).mpr
    ⟨hsig, hrev, hsz1, hsz2, HeaderCrc_setHeaderCrc _, hres, hsoe, hn1, hn2, hprod,
     ⟨hml, ?_⟩, hfu, hlu, hfl⟩
  show sub64 (sub64 g.drive_sectors 1) GPT_ENTRIES_SECTORS =
    (rebuildSecondaryHeader g).my_lba - GPT_ENTRIES_SECTORS
  rw [hml, sub64_eq_sub _ _ (by omega) hhi (by norm_num),
      sub64_eq_sub _ _ (by simp only [GPT_ENTRIES_SECTORS]; omega) (by omega) (by norm_num)]

/-- Rebuilding the primary header from a valid secondary yields a valid
primary header. -/
theorem rebuildPrimaryHeader_ok (g : GptData)
    (hlo : 33 ≤ g.drive_sectors) (hhi : g.drive_sectors < 2 ^ 64)
    (hh2 : CheckHeader g.secondary_header true g.drive_sectors = 0) :
    CheckHeader (rebuildPrimaryHeader g) false g.drive_sectors = 0 := by
  obtain ⟨hsig, hrev, hsz1, hsz2, _, hres, hsoe, hn1, hn2, hprod, _, hfu, hlu, hfl⟩ :=
    (CheckHeader_characterization _ true _ hlo hhi).mp hh2
  refine (CheckHeader_characterization _ false _ hlo hhi).mpr
    ⟨hsig, hrev, hsz1, hsz2, HeaderCrc_setHeaderCrc _, hres, hsoe, hn1, hn2, hprod,
     ?_, hfu, hlu, hfl⟩
  show (rebuildPrimaryHeader g).my_lba = 1 ∧ (rebuildPrimaryHeader g).entries_lba = 2
  exact ⟨rfl, rfl⟩

/-- When everything is in order — parameters, both headers, field agreement,
both tables against the primary header — `GptSanityCheck` reports success
with both masks `MASK_BOTH`. -/
theorem sanity_allgood_spec (g : GptData)
    (hp : CheckParameters g = GPT_SUCCESS)
    (hh1 : CheckHeader g.primary_header false g.drive_sectors = 0)
    (hh2 : CheckHeader g.secondary_header true g.drive_sectors = 0)
    (hfs : HeaderFieldsSame g.primary_header g.secondary_header = 0)
    (he1 : CheckEntries g.primary_entries g.primary_header = 0)
    (he2 : CheckEntries g.secondary_entries g.primary_header = 0) :
    (GptSanityCheck g).1 = GPT_SUCCESS ∧
    (GptSanityCheck g).2.valid_headers = MASK_BOTH ∧
    (GptSanityCheck g).2.valid_entries = MASK_BOTH := by
  have hmask : sanityHeaderMask (sanityReset g) = MASK_BOTH := by
    unfold sanityHeaderMask
    simp only [sanityReset_primary_header, sanityReset_secondary_header,
      sanityReset_drive_sectors]
    rw [if_pos hh1, if_pos hh2]
    decide
  have hgood : sanityGoodHdr (sanityReset g) = g.primary_header := by
    unfold sanityGoodHdr
    simp only [sanityReset_primary_header, sanityReset_drive_sectors]
    rw [if_pos hh1]
  have hem : sanityEntriesMask (sanityReset g) (sanityGoodHdr (sanityReset g)) = MASK_BOTH := by
    rw [hgood]
    unfold sanityEntriesMask
    simp only [sanityReset_primary_entries, sanityReset_secondary_entries]
    rw [if_pos he1, if_pos he2]
    decide
  have hnc : ¬ sanityCross (sanityReset g) :=
    fun hc => absurd (hem.symm.trans hc.2) (by decide)
  have hve2 : sanityVe2 (sanityReset g) = MASK_BOTH := by
    unfold sanityVe2
    rw [if_neg hnc]
    exact hem
  have hvne : sanityVe2 (sanityReset g) ≠ MASK_NONE := by
    rw [hve2]; decide
  have hvh2 : sanityVh2 (sanityReset g) = MASK_BOTH := by
    unfold sanityVh2
    rw [if_neg (fun hc => hnc hc.1)]
    exact hmask
  have hvh3 : sanityVh3 (sanityReset g) = MASK_BOTH := by
    unfold sanityVh3
    simp only [sanityReset_primary_header, sanityReset_secondary_header]
    rw [hvh2, if_neg (fun hc => hc.2 hfs)]
  unfold GptSanityCheck
  rw [if_neg (show ¬ CheckParameters (sanityReset g) ≠ GPT_SUCCESS from
        fun hne => hne (by rw [CheckParameters_sanityReset]; exact hp)),
      if_neg (show ¬ sanityHeaderMask (sanityReset g) = MASK_NONE from by
        rw [hmask]; decide),
      if_neg hvne]
  exact ⟨rfl, hvh3, hve2⟩

/-- Unpacking a two-bit validity mask built from two condition bits. -/
theorem inv_entry_bits (E : Nat) (P Q : Prop) [Decidable P] [Decidable Q]
    (hEv : E = (if P then MASK_PRIMARY else 0) + (if Q then MASK_SECONDARY else 0))
    (hne : E ≠ MASK_NONE) :
    (E = MASK_PRIMARY ∨ E = MASK_SECONDARY ∨ E = MASK_BOTH) ∧
    (E ≠ MASK_SECONDARY → P) ∧ (E ≠ MASK_PRIMARY → Q) := by
  subst hEv
  by_cases p : P <;> by_cases q : Q
  · simp only [if_pos p, if_pos q]
    exact ⟨by decide, fun _ => p, fun _ => q⟩
  · simp only [if_pos p, if_neg q]
    exact ⟨by decide, fun _ => p, fun h => absurd (by decide) h⟩
  · simp only [if_neg p, if_pos q]
    exact ⟨by decide, fun h => absurd (by decide) h, fun _ => q⟩
  · exact absurd (by rw [if_neg p, if_neg q]) hne

/-- A successful `GptSanityCheck` leaves honest masks: `Inv` holds of its
output. -/
theorem sanity_success_inv (g : GptData)
    (hsan : (GptSanityCheck g).1 = GPT_SUCCESS) :
    Inv (GptSanityCheck g).2 := by
  by_cases hp : CheckParameters (sanityReset g) ≠ GPT_SUCCESS
  · exfalso
    unfold GptSanityCheck at hsan
    rw [if_pos hp] at hsan
    exact hp hsan
  push_neg at hp
  by_cases hm : sanityHeaderMask (sanityReset g) = MASK_NONE
  · exfalso
    unfold GptSanityCheck at hsan
    rw [if_neg (fun hne => hne hp), if_pos hm] at hsan
    simp at hsan
  by_cases hv : sanityVe2 (sanityReset g) = MASK_NONE
  · exfalso
    unfold GptSanityCheck at hsan
    rw [if_neg (fun hne => hne hp), if_neg hm, if_pos hv] at hsan
    simp at hsan
  have hout : (GptSanityCheck g).2 =
      { sanityReset g with valid_headers := sanityVh3 (sanityReset g),
                           valid_entries := sanityVe2 (sanityReset g) } := by
    unfold GptSanityCheck
    rw [if_neg (fun hne => hne hp), if_neg hm, if_neg hv]
  rw [hout]
  have hmdef : sanityHeaderMask (sanityReset g) =
      (if CheckHeader g.primary_header false g.drive_sectors = 0 then MASK_PRIMARY else 0) +
      (if CheckHeader g.secondary_header true g.drive_sectors = 0 then MASK_SECONDARY else 0) := by
    unfold sanityHeaderMask
    simp only [sanityReset_primary_header, sanityReset_secondary_header,
      sanityReset_drive_sectors]
  have hedef : ∀ hh : GptHeader, sanityEntriesMask (sanityReset g) hh =
      (if CheckEntries g.primary_entries hh = 0 then MASK_PRIMARY else 0) +
      (if CheckEntries g.secondary_entries hh = 0 then MASK_SECONDARY else 0) := by
    intro hh
    unfold sanityEntriesMask
    simp only [sanityReset_primary_entries, sanityReset_secondary_entries]
  have hgdef : sanityGoodHdr (sanityReset g) =
      (if CheckHeader g.primary_header false g.drive_sectors = 0 then g.primary_header
       else g.secondary_header) := by
    unfold sanityGoodHdr
    simp only [sanityReset_primary_header, sanityReset_secondary_header,
      sanityReset_drive_sectors]
  by_cases c1 : CheckHeader g.primary_header false g.drive_sectors = 0
  · have hgood : sanityGoodHdr (sanityReset g) = g.primary_header := by
      rw [hgdef, if_pos c1]
    by_cases c2 : CheckHeader g.secondary_header true g.drive_sectors = 0
    · have hmask : sanityHeaderMask (sanityReset g) = MASK_BOTH := by
        rw [hmdef, if_pos c1, if_pos c2]
        decide
      by_cases hcr : sanityCross (sanityReset g)
      · have hEv : sanityVe2 (sanityReset g) =
            (if CheckEntries g.primary_entries g.secondary_header = 0 then MASK_PRIMARY else 0) +
            (if CheckEntries g.secondary_entries g.secondary_header = 0 then MASK_SECONDARY
             else 0) := by
          unfold sanityVe2
          rw [if_pos hcr]
          simp only [sanityReset_secondary_header]
          rw [hedef]
        obtain ⟨hbr, hbp, hbq⟩ := inv_entry_bits _ _ _ hEv hv
        have hvh2 : sanityVh2 (sanityReset g) = MASK_SECONDARY := by
          unfold sanityVh2
          rw [if_pos ⟨hcr, hv⟩, hmask]
          decide
        have hvh3 : sanityVh3 (sanityReset g) = MASK_SECONDARY := by
          unfold sanityVh3
          rw [hvh2, if_neg (fun hc => absurd hc.1 (by decide))]
        have hgR : goodHeader { sanityReset g with
            valid_headers := sanityVh3 (sanityReset g),
            valid_entries := sanityVe2 (sanityReset g) } = g.secondary_header := by
          rw [goodHeader_mk, if_pos hvh3, sanityReset_secondary_header]
        refine ⟨hp, Or.inr (Or.inl hvh3), hbr, ?_, fun _ => c2, ?_, ?_, ?_⟩
        · intro hne; exact absurd hvh3 hne
        · intro hne; rw [hgR]; exact hbp hne
        · intro hne; rw [hgR]; exact hbq hne
        · intro h3; exact absurd (hvh3.symm.trans h3) (by decide)
      · have hEv : sanityVe2 (sanityReset g) =
            (if CheckEntries g.primary_entries g.primary_header = 0 then MASK_PRIMARY else 0) +
            (if CheckEntries g.secondary_entries g.primary_header = 0 then MASK_SECONDARY
             else 0) := by
          unfold sanityVe2
          rw [if_neg hcr, hgood, hedef]
        obtain ⟨hbr, hbp, hbq⟩ := inv_entry_bits _ _ _ hEv hv
        have hvh2 : sanityVh2 (sanityReset g) = MASK_BOTH := by
          unfold sanityVh2
          rw [if_neg (fun hc => hcr hc.1)]
          exact hmask
        by_cases hfs : HeaderFieldsSame g.primary_header g.secondary_header = 0
        · have hvh3 : sanityVh3 (sanityReset g) = MASK_BOTH := by
            unfold sanityVh3
            simp only [sanityReset_primary_header, sanityReset_secondary_header]
            rw [hvh2, if_neg (fun hc => hc.2 hfs)]
          have hgR : goodHeader { sanityReset g with
              valid_headers := sanityVh3 (sanityReset g),
              valid_entries := sanityVe2 (sanityReset g) } = g.primary_header := by
            rw [goodHeader_mk, if_neg (fun hc => absurd (hvh3.symm.trans hc) (by decide)),
              sanityReset_primary_header]
          refine ⟨hp, Or.inr (Or.inr hvh3), hbr, fun _ => c1, fun _ => c2, ?_, ?_,
            fun _ => hfs⟩
          · intro hne; rw [hgR]; exact hbp hne
          · intro hne; rw [hgR]; exact hbq hne
        · have hvh3 : sanityVh3 (sanityReset g) = MASK_PRIMARY := by
            unfold sanityVh3
            simp only [sanityReset_primary_header, sanityReset_secondary_header]
            rw [hvh2, if_pos ⟨rfl, hfs⟩]
            decide
          have hgR : goodHeader { sanityReset g with
              valid_headers := sanityVh3 (sanityReset g),
              valid_entries := sanityVe2 (sanityReset g) } = g.primary_header := by
            rw [goodHeader_mk, if_neg (fun hc => absurd (hvh3.symm.trans hc) (by decide)),
              sanityReset_primary_header]
          refine ⟨hp, Or.inl hvh3, hbr, fun _ => c1, ?_, ?_, ?_, ?_⟩
          · intro hne; exact absurd hvh3 hne
          · intro hne; rw [hgR]; exact hbp hne
          · intro hne; rw [hgR]; exact hbq hne
          · intro h3; exact absurd (hvh3.symm.trans h3) (by decide)
    · have hmask : sanityHeaderMask (sanityReset g) = MASK_PRIMARY := by
        rw [hmdef, if_pos c1, if_neg c2]
      have hcr : ¬ sanityCross (sanityReset g) :=
        fun hc => absurd (hmask.symm.trans hc.1) (by decide)
      have hEv : sanityVe2 (sanityReset g) =
          (if CheckEntries g.primary_entries g.primary_header = 0 then MASK_PRIMARY else 0) +
          (if CheckEntries g.secondary_entries g.primary_header = 0 then MASK_SECONDARY
           else 0) := by
        unfold sanityVe2
        rw [if_neg hcr, hgood, hedef]
      obtain ⟨hbr, hbp, hbq⟩ := inv_entry_bits _ _ _ hEv hv
      have hvh2 : sanityVh2 (sanityReset g) = MASK_PRIMARY := by
        unfold sanityVh2
        rw [if_neg (fun hc => hcr hc.1)]
        exact hmask
      have hvh3 : sanityVh3 (sanityReset g) = MASK_PRIMARY := by
        unfold sanityVh3
        rw [hvh2, if_neg (fun hc => absurd hc.1 (by decide))]
      have hgR : goodHeader { sanityReset g with
          valid_headers := sanityVh3 (sanityReset g),
          valid_entries := sanityVe2 (sanityReset g) } = g.primary_header := by
        rw [goodHeader_mk, if_neg (fun hc => absurd (hvh3.symm.trans hc) (by decide)),
          sanityReset_primary_header]
      refine ⟨hp, Or.inl hvh3, hbr, fun _ => c1, ?_, ?_, ?_, ?_⟩
      · intro hne; exact absurd hvh3 hne
      · intro hne; rw [hgR]; exact hbp hne
      · intro hne; rw [hgR]; exact hbq hne
      · intro h3; exact absurd (hvh3.symm.trans h3) (by decide)
  · have c2 : CheckHeader g.secondary_header true g.drive_sectors = 0 := by
      by_contra c2n
      apply hm
      rw [hmdef, if_neg c1, if_neg c2n]
    have hmask : sanityHeaderMask (sanityReset g) = MASK_SECONDARY := by
      rw [hmdef, if_neg c1, if_pos c2]
      decide
    have hgood : sanityGoodHdr (sanityReset g) = g.secondary_header := by
      rw [hgdef, if_neg c1]
    have hcr : ¬ sanityCross (sanityReset g) :=
      fun hc => absurd (hmask.symm.trans hc.1) (by decide)
    have hEv : sanityVe2 (sanityReset g) =
        (if CheckEntries g.primary_entries g.secondary_header = 0 then MASK_PRIMARY else 0) +
        (if CheckEntries g.secondary_entries g.secondary_header = 0 then MASK_SECONDARY
         else 0) := by
      unfold sanityVe2
      rw [if_neg hcr, hgood, hedef]
    obtain ⟨hbr, hbp, hbq⟩ := inv_entry_bits _ _ _ hEv hv
    have hvh2 : sanityVh2 (sanityReset g) = MASK_SECONDARY := by
      unfold sanityVh2
      rw [if_neg (fun hc => hcr hc.1)]
      exact hmask
    have hvh3 : sanityVh3 (sanityReset g) = MASK_SECONDARY := by
      unfold sanityVh3
      rw [hvh2, if_neg (fun hc => absurd hc.1 (by decide))]
    have hgR : goodHeader { sanityReset g with
        valid_headers := sanityVh3 (sanityReset g),
        valid_entries := sanityVe2 (sanityReset g) } = g.secondary_header := by
      rw [goodHeader_mk, if_pos hvh3, sanityReset_secondary_header]
    refine ⟨hp, Or.inr (Or.inl hvh3), hbr, ?_, fun _ => c2, ?_, ?_, ?_⟩
    · intro hne; exact absurd hvh3 hne
    · intro hne; rw [hgR]; exact hbp hne
    · intro hne; rw [hgR]; exact hbq hne
    · intro h3; exact absurd (hvh3.symm.trans h3) (by decide)

/-- A successful `GptRecomputeSize` hands `GptRepair` a state with honest
masks and the original geometry and entry buffers. -/
theorem recompute_success_inv (g : GptData)
    (hInv : Inv g)
    (hrec : (GptRecomputeSize g).1 = GPT_SUCCESS) :
    Inv (GptRecomputeSize g).2 ∧
    (GptRecomputeSize g).2.drive_sectors = g.drive_sectors ∧
    (GptRecomputeSize g).2.primary_entries.length = g.primary_entries.length ∧
    (GptRecomputeSize g).2.secondary_entries.length = g.secondary_entries.length ∧
    (GptRecomputeSize g).2.valid_entries ≠ MASK_NONE ∧
    (GptRecomputeSize g).2.valid_headers ≠ MASK_NONE := by
  by_cases hbit : g.valid_headers &&& MASK_PRIMARY ≠ 0
  · by_cases hchg : g.primary_header.alternate_lba = sub64 g.drive_sectors 1 ∧
        g.primary_header.last_usable_lba =
          sub64 (sub64 (sub64 g.drive_sectors 1) GPT_ENTRIES_SECTORS) 1
    · have hred : GptRecomputeSize g = (GPT_SUCCESS, g) := by
        unfold GptRecomputeSize
        rw [if_pos hbit, if_pos hchg]
      rw [hred]
      refine ⟨hInv, rfl, rfl, rfl, ?_, ?_⟩
      · rcases hInv.2.2.1 with h | h | h <;> rw [h] <;> decide
      · rcases hInv.2.1 with h | h | h <;> rw [h] <;> decide
    · by_cases hfail : (GptSanityCheck (recomputeRewrittenPrimary g)).1 ≠ GPT_SUCCESS ∨
          (GptSanityCheck (recomputeRewrittenPrimary g)).2.valid_headers ≠ MASK_PRIMARY
      · exact absurd (hrec.symm.trans (recompute_spec_primary_fail g hbit hchg hfail).1)
          (by decide)
      · push_neg at hfail
        have hred : GptRecomputeSize g =
            (GPT_SUCCESS,
              { (GptSanityCheck (recomputeRewrittenPrimary g)).2 with
                modified := (GptSanityCheck (recomputeRewrittenPrimary g)).2.modified |||
                  (GPT_MODIFIED_HEADER2 ||| GPT_MODIFIED_ENTRIES2) |||
                  GPT_MODIFIED_HEADER1 }) := by
          unfold GptRecomputeSize
          rw [if_pos hbit, if_neg hchg]
          unfold recomputeCheck
          rw [if_neg (by push_neg; exact hfail)]
          simp
        have hinv2 := sanity_success_inv _ hfail.1
        rw [hred]
        refine ⟨(Inv_set_modified _ _).mpr hinv2, ?_, ?_, ?_, ?_, ?_⟩
        · show (GptSanityCheck (recomputeRewrittenPrimary g)).2.drive_sectors = _
          rw [sanity_snd_drive_sectors]
          rfl
        · show (GptSanityCheck (recomputeRewrittenPrimary g)).2.primary_entries.length = _
          rw [sanity_snd_primary_entries]
          rfl
        · show (GptSanityCheck (recomputeRewrittenPrimary g)).2.secondary_entries.length = _
          rw [sanity_snd_secondary_entries]
          rfl
        · show (GptSanityCheck (recomputeRewrittenPrimary g)).2.valid_entries ≠ MASK_NONE
          rcases hinv2.2.2.1 with h | h | h <;> rw [h] <;> decide
        · show (GptSanityCheck (recomputeRewrittenPrimary g)).2.valid_headers ≠ MASK_NONE
          rw [hfail.2]
          decide
  · by_cases hbit2 : g.valid_headers &&& MASK_SECONDARY ≠ 0
    · by_cases hchg : g.secondary_header.my_lba = sub64 g.drive_sectors 1 ∧
          g.secondary_header.entries_lba = sub64 (sub64 g.drive_sectors 1) GPT_ENTRIES_SECTORS ∧
          g.secondary_header.last_usable_lba =
            sub64 (sub64 (sub64 g.drive_sectors 1) GPT_ENTRIES_SECTORS) 1
      · have hred : GptRecomputeSize g = (GPT_SUCCESS, g) := by
          unfold GptRecomputeSize
          rw [if_neg hbit, if_pos hbit2, if_pos hchg]
        rw [hred]
        refine ⟨hInv, rfl, rfl, rfl, ?_, ?_⟩
        · rcases hInv.2.2.1 with h | h | h <;> rw [h] <;> decide
        · rcases hInv.2.1 with h | h | h <;> rw [h] <;> decide
      · by_cases hfail : (GptSanityCheck (recomputeRewrittenSecondary g)).1 ≠ GPT_SUCCESS ∨
            (GptSanityCheck (recomputeRewrittenSecondary g)).2.valid_headers ≠ MASK_SECONDARY
        · exact absurd
            (hrec.symm.trans
              (recompute_spec_secondary_fail g (by push_neg at hbit; exact hbit)
                hbit2 hchg hfail).1)
            (by decide)
        · push_neg at hfail
          have hred : GptRecomputeSize g =
              (GPT_SUCCESS,
                { (GptSanityCheck (recomputeRewrittenSecondary g)).2 with
                  modified := (GptSanityCheck (recomputeRewrittenSecondary g)).2.modified |||
                    (GPT_MODIFIED_HEADER2 ||| GPT_MODIFIED_ENTRIES2) ||| 0 }) := by
            unfold GptRecomputeSize
            rw [if_neg hbit, if_pos hbit2, if_neg hchg]
            unfold recomputeCheck
            rw [if_neg (by push_neg; exact hfail)]
            simp
          have hinv2 := sanity_success_inv _ hfail.1
          rw [hred]
          refine ⟨(Inv_set_modified _ _).mpr hinv2, ?_, ?_, ?_, ?_, ?_⟩
          · show (GptSanityCheck (recomputeRewrittenSecondary g)).2.drive_sectors = _
            rw [sanity_snd_drive_sectors]
            rfl
          · show (GptSanityCheck (recomputeRewrittenSecondary g)).2.primary_entries.length = _
            rw [sanity_snd_primary_entries]
            rfl
          · show (GptSanityCheck (recomputeRewrittenSecondary g)).2.secondary_entries.length = _
            rw [sanity_snd_secondary_entries]
            rfl
          · show (GptSanityCheck (recomputeRewrittenSecondary g)).2.valid_entries ≠ MASK_NONE
            rcases hinv2.2.2.1 with h | h | h <;> rw [h] <;> decide
          · show (GptSanityCheck (recomputeRewrittenSecondary g)).2.valid_headers ≠ MASK_NONE
            rw [hfail.2]
            decide
    · exfalso
      have hred : GptRecomputeSize g = (GPT_ERROR_INVALID_HEADERS, g) := by
        unfold GptRecomputeSize
        rw [if_neg hbit, if_neg hbit2]
      rw [hred] at hrec
      simp at hrec

/-- How `repairEntries` rewrites the two entry buffers, when both fit in the
copied size. -/
theorem repairEntries_tables (x : GptData)
    (hl1 : x.primary_entries.length ≤ entriesSize x)
    (hl2 : x.secondary_entries.length ≤ entriesSize x) :
    (x.valid_entries = MASK_PRIMARY →
      (repairEntries x).primary_entries = x.primary_entries ∧
      (repairEntries x).secondary_entries = x.primary_entries) ∧
    (x.valid_entries = MASK_SECONDARY →
      (repairEntries x).primary_entries = x.secondary_entries ∧
      (repairEntries x).secondary_entries = x.secondary_entries) ∧
    (x.valid_entries = MASK_BOTH →
      (repairEntries x).primary_entries = x.primary_entries ∧
      (repairEntries x).secondary_entries = x.secondary_entries) := by
  refine ⟨fun h => ?_, fun h => ?_, fun h => ?_⟩
  · unfold repairEntries
    rw [if_pos h]
    exact ⟨rfl, memcpyBytes_full _ _ _ hl1 hl2⟩
  · unfold repairEntries
    rw [if_neg (by rw [h]; decide), if_pos h]
    exact ⟨memcpyBytes_full _ _ _ hl2 hl1, rfl⟩
  · unfold repairEntries
    rw [if_neg (by rw [h]; decide), if_neg (by rw [h]; decide)]
    exact ⟨rfl, rfl⟩

/-- The repair tail of `GptRepair`, run on a state with honest masks: both
masks end `MASK_BOTH`, the headers compare field-equal, a rebuilt entry table
is a byte copy of its source, and a subsequent `GptSanityCheck` reports
success with both masks `MASK_BOTH`. -/
theorem repairTail_spec (g : GptData)
    (hInv : Inv g)
    (hds : g.drive_sectors < 2 ^ 64)
    (hl1 : g.primary_entries.length ≤ TOTAL_ENTRIES_SIZE)
    (hl2 : g.secondary_entries.length ≤ TOTAL_ENTRIES_SIZE) :
    (GptRepairTail g).valid_headers = MASK_BOTH ∧
    (GptRepairTail g).valid_entries = MASK_BOTH ∧
    HeaderFieldsSame (GptRepairTail g).primary_header (GptRepairTail g).secondary_header = 0 ∧
    (g.valid_entries ≠ MASK_BOTH →
      (GptRepairTail g).primary_entries = (GptRepairTail g).secondary_entries) ∧
    (GptSanityCheck (GptRepairTail g)).1 = GPT_SUCCESS ∧
    (GptSanityCheck (GptRepairTail g)).2.valid_headers = MASK_BOTH ∧
    (GptSanityCheck (GptRepairTail g)).2.valid_entries = MASK_BOTH := by
  obtain ⟨hp, hvh, hve, hH1, hH2, hE1, hE2, hFS⟩ := hInv
  obtain ⟨hsb, hds67⟩ := CheckParameters_ds g hp
  have hlo : 33 ≤ g.drive_sectors := by omega
  have hstage1 :
      CheckHeader (repairHeaders g).primary_header false g.drive_sectors = 0 ∧
      CheckHeader (repairHeaders g).secondary_header true g.drive_sectors = 0 ∧
      HeaderFieldsSame (repairHeaders g).primary_header (repairHeaders g).secondary_header = 0 ∧
      (repairHeaders g).primary_header.size_of_entry = (goodHeader g).size_of_entry ∧
      (repairHeaders g).primary_header.number_of_entries = (goodHeader g).number_of_entries ∧
      (repairHeaders g).primary_header.entries_crc32 = (goodHeader g).entries_crc32 ∧
      (repairHeaders g).primary_header.first_usable_lba = (goodHeader g).first_usable_lba ∧
      (repairHeaders g).primary_header.last_usable_lba = (goodHeader g).last_usable_lba := by
    rcases hvh with h1 | h1 | h1
    · have hgh : repairHeaders g =
          { g with
              secondary_header := rebuildSecondaryHeader g
              modified := g.modified ||| GPT_MODIFIED_HEADER2 } := by
        unfold repairHeaders
        rw [if_pos h1]
      have hgood : goodHeader g = g.primary_header := by
        unfold goodHeader
        rw [if_neg (by rw [h1]; decide)]
      have hph := hH1 (by rw [h1]; decide)
      rw [hgh, hgood]
      exact ⟨hph, rebuildSecondaryHeader_ok g hlo hds hph,
        HeaderFieldsSame_rebuildSecondary g, rfl, rfl, rfl, rfl, rfl⟩
    · have hgh : repairHeaders g =
          { g with
              primary_header := rebuildPrimaryHeader g
              modified := g.modified ||| GPT_MODIFIED_HEADER1 } := by
        unfold repairHeaders
        rw [if_neg (by rw [h1]; decide), if_pos h1]
      have hgood : goodHeader g = g.secondary_header := by
        unfold goodHeader
        rw [if_pos h1]
      have hsh := hH2 (by rw [h1]; decide)
      rw [hgh, hgood]
      exact ⟨rebuildPrimaryHeader_ok g hlo hds hsh, hsh,
        HeaderFieldsSame_rebuildPrimary g, rfl, rfl, rfl, rfl, rfl⟩
    · have hgh : repairHeaders g = g := by
        unfold repairHeaders
        rw [if_neg (by rw [h1]; decide), if_neg (by rw [h1]; decide)]
      have hgood : goodHeader g = g.primary_header := by
        unfold goodHeader
        rw [if_neg (by rw [h1]; decide)]
      rw [hgh, hgood]
      exact ⟨hH1 (by rw [h1]; decide), hH2 (by rw [h1]; decide), hFS h1,
        rfl, rfl, rfl, rfl, rfl⟩
  obtain ⟨F1, F2, F3, Fsoe, Fnoe, Fecrc, Ffu, Flu⟩ := hstage1
  have hchar := (CheckHeader_characterization _ false _ hlo hds).mp F1
  have hsoe128 : (repairHeaders g).primary_header.size_of_entry = 128 :=
    hchar.2.2.2.2.2.2.1
  have hnoe128 : (repairHeaders g).primary_header.number_of_entries = 128 := by
    have hprod := hchar.2.2.2.2.2.2.2.2.2.1
    rw [hsoe128] at hprod
    simp only [TOTAL_ENTRIES_SIZE] at hprod
    omega
  have hES : entriesSize { repairHeaders g with valid_headers := MASK_BOTH } =
      TOTAL_ENTRIES_SIZE := by
    unfold entriesSize
    show (repairHeaders g).primary_header.size_of_entry *
      (repairHeaders g).primary_header.number_of_entries % 2 ^ 32 = TOTAL_ENTRIES_SIZE
    rw [hsoe128, hnoe128]
    decide
  have hLp : ({ repairHeaders g with valid_headers := MASK_BOTH } :
      GptData).primary_entries.length ≤
      entriesSize { repairHeaders g with valid_headers := MASK_BOTH } := by
    rw [hES]
    show (repairHeaders g).primary_entries.length ≤ _
    rw [repairHeaders_primary_entries]
    exact hl1
  have hLs : ({ repairHeaders g with valid_headers := MASK_BOTH } :
      GptData).secondary_entries.length ≤
      entriesSize { repairHeaders g with valid_headers := MASK_BOTH } := by
    rw [hES]
    show (repairHeaders g).secondary_entries.length ≤ _
    rw [repairHeaders_secondary_entries]
    exact hl2
  have htab := repairEntries_tables _ hLp hLs
  have hveq : ({ repairHeaders g with valid_headers := MASK_BOTH } :
      GptData).valid_entries = g.valid_entries := by
    show (repairHeaders g).valid_entries = g.valid_entries
    rw [repairHeaders_valid_entries]
  have hrP : (GptRepairTail g).primary_header = (repairHeaders g).primary_header := by
    show (repairEntries { repairHeaders g with valid_headers := MASK_BOTH }).primary_header = _
    rw [repairEntries_primary_header]
  have hrS : (GptRepairTail g).secondary_header = (repairHeaders g).secondary_header := by
    show (repairEntries { repairHeaders g with valid_headers := MASK_BOTH }).secondary_header = _
    rw [repairEntries_secondary_header]
  have hrds : (GptRepairTail g).drive_sectors = g.drive_sectors := by
    show (repairEntries { repairHeaders g with valid_headers := MASK_BOTH }).drive_sectors = _
    rw [repairEntries_drive_sectors]
    show (repairHeaders g).drive_sectors = _
    rw [repairHeaders_drive_sectors]
  have hrsb : (GptRepairTail g).sector_bytes = g.sector_bytes := by
    show (repairEntries { repairHeaders g with valid_headers := MASK_BOTH }).sector_bytes = _
    rw [repairEntries_sector_bytes]
    show (repairHeaders g).sector_bytes = _
    rw [repairHeaders_sector_bytes]
  have hrvh : (GptRepairTail g).valid_headers = MASK_BOTH := by
    show (repairEntries { repairHeaders g with valid_headers := MASK_BOTH }).valid_headers = _
    rw [repairEntries_valid_headers]
  have hp_r : CheckParameters (GptRepairTail g) = GPT_SUCCESS := by
    have hcp : CheckParameters (GptRepairTail g) = CheckParameters g := by
      unfold CheckParameters
      rw [hrsb, hrds]
    rw [hcp]
    exact hp
  have hcongrP : ∀ e : List Nat,
      CheckEntries e (GptRepairTail g).primary_header = CheckEntries e (goodHeader g) := by
    intro e
    rw [hrP]
    exact CheckEntries_fields_congr e _ _ Fsoe Fnoe Fecrc Ffu Flu
  suffices hsuff : ∀ T1 T2 : List Nat,
      (GptRepairTail g).primary_entries = T1 →
      (GptRepairTail g).secondary_entries = T2 →
      CheckEntries T1 (goodHeader g) = 0 →
      CheckEntries T2 (goodHeader g) = 0 →
      (g.valid_entries ≠ MASK_BOTH → T1 = T2) →
      (GptRepairTail g).valid_headers = MASK_BOTH ∧
      (GptRepairTail g).valid_entries = MASK_BOTH ∧
      HeaderFieldsSame (GptRepairTail g).primary_header
        (GptRepairTail g).secondary_header = 0 ∧
      (g.valid_entries ≠ MASK_BOTH →
        (GptRepairTail g).primary_entries = (GptRepairTail g).secondary_entries) ∧
      (GptSanityCheck (GptRepairTail g)).1 = GPT_SUCCESS ∧
      (GptSanityCheck (GptRepairTail g)).2.valid_headers = MASK_BOTH ∧
      (GptSanityCheck (GptRepairTail g)).2.valid_entries = MASK_BOTH by
    rcases hve with h2 | h2 | h2
    · have ht := htab.1 (hveq.trans h2)
      refine hsuff g.primary_entries g.primary_entries ?_ ?_
        (hE1 (by rw [h2]; decide)) (hE1 (by rw [h2]; decide)) (fun _ => rfl)
      · show (repairEntries { repairHeaders g with valid_headers := MASK_BOTH
          }).primary_entries = _
        rw [ht.1]
        show (repairHeaders g).primary_entries = _
        rw [repairHeaders_primary_entries]
      · show (repairEntries { repairHeaders g with valid_headers := MASK_BOTH
          }).secondary_entries = _
        rw [ht.2]
        show (repairHeaders g).primary_entries = _
        rw [repairHeaders_primary_entries]
    · have ht := htab.2.1 (hveq.trans h2)
      refine hsuff g.secondary_entries g.secondary_entries ?_ ?_
        (hE2 (by rw [h2]; decide)) (hE2 (by rw [h2]; decide)) (fun _ => rfl)
      · show (repairEntries { repairHeaders g with valid_headers := MASK_BOTH
          }).primary_entries = _
        rw [ht.1]
        show (repairHeaders g).secondary_entries = _
        rw [repairHeaders_secondary_entries]
      · show (repairEntries { repairHeaders g with valid_headers := MASK_BOTH
          }).secondary_entries = _
        rw [ht.2]
        show (repairHeaders g).secondary_entries = _
        rw [repairHeaders_secondary_entries]
    · have ht := htab.2.2 (hveq.trans h2)
      refine hsuff g.primary_entries g.secondary_entries ?_ ?_
        (hE1 (by rw [h2]; decide)) (hE2 (by rw [h2]; decide))
        (fun hne => absurd h2 hne)
      · show (repairEntries { repairHeaders g with valid_headers := MASK_BOTH
          }).primary_entries = _
        rw [ht.1]
        show (repairHeaders g).primary_entries = _
        rw [repairHeaders_primary_entries]
      · show (repairEntries { repairHeaders g with valid_headers := MASK_BOTH
          }).secondary_entries = _
        rw [ht.2]
        show (repairHeaders g).secondary_entries = _
        rw [repairHeaders_secondary_entries]
  intro T1 T2 hT1 hT2 hv1 hv2 hEq
  have hsan := sanity_allgood_spec (GptRepairTail g) hp_r
    (by rw [hrP, hrds]; exact F1)
    (by rw [hrS, hrds]; exact F2)
    (by rw [hrP, hrS]; exact F3)
    (by rw [hT1, hcongrP]; exact hv1)
    (by rw [hT2, hcongrP]; exact hv2)
  refine ⟨hrvh, rfl, by rw [hrP, hrS]; exact F3, ?_, hsan.1, hsan.2.1, hsan.2.2⟩
  intro hne
  rw [hT1, hT2]
  exact hEq hne

/-- **C1.** Repair convergence.  Start from any image `g0` whose sanity check
succeeds (so at least one header and one entry table are valid and the masks
are honest), with a 64-bit sector count and entry buffers of at most
`TOTAL_ENTRIES_SIZE` bytes.  If the geometry adaptation (`GptRecomputeSize`)
succeeds, then after `GptRepair` both masks are `MASK_BOTH`, the two headers
compare field-equal except in `my_lba`, `alternate_lba`, `entries_lba` and
`header_crc32` (that is, `HeaderFieldsSame` returns 0), the two entry buffers
are byte-identical whenever a table was rebuilt from the other
(`valid_entries ≠ MASK_BOTH` going into the repair tail; when both tables
already validated they agree in CRC but, by CRC collision, not necessarily in
bytes — see the counterexample), and a subsequent `GptSanityCheck` returns
`GPT_SUCCESS` with both masks `MASK_BOTH`. -/
theorem GptRepair_convergence (g0 : GptData)
    (hds : g0.drive_sectors < 2 ^ 64)
    (hl1 : g0.primary_entries.length ≤ TOTAL_ENTRIES_SIZE)
    (hl2 : g0.secondary_entries.length ≤ TOTAL_ENTRIES_SIZE)
    (hsan : (GptSanityCheck g0).1 = GPT_SUCCESS)
    (hrec : (GptRecomputeSize (GptSanityCheck g0).2).1 = GPT_SUCCESS) :
    (GptRepair (GptSanityCheck g0).2).valid_headers = MASK_BOTH ∧
    (GptRepair (GptSanityCheck g0).2).valid_entries = MASK_BOTH ∧
    HeaderFieldsSame (GptRepair (GptSanityCheck g0).2).primary_header
      (GptRepair (GptSanityCheck g0).2).secondary_header = 0 ∧
    ((GptRecomputeSize (GptSanityCheck g0).2).2.valid_entries ≠ MASK_BOTH →
      (GptRepair (GptSanityCheck g0).2).primary_entries =
        (GptRepair (GptSanityCheck g0).2).secondary_entries) ∧
    (GptSanityCheck (GptRepair (GptSanityCheck g0).2)).1 = GPT_SUCCESS ∧
    (GptSanityCheck (GptRepair (GptSanityCheck g0).2)).2.valid_headers = MASK_BOTH ∧
    (GptSanityCheck (GptRepair (GptSanityCheck g0).2)).2.valid_entries = MASK_BOTH := by
  have hin := sanity_success_inv g0 hsan
  obtain ⟨hinv2, hds2, hlen1, hlen2, hvne, hhne⟩ := recompute_success_inv _ hin hrec
  have hrep : GptRepair (GptSanityCheck g0).2 =
      GptRepairTail (GptRecomputeSize (GptSanityCheck g0).2).2 := by
    unfold GptRepair
    rw [if_neg ?hmz, if_neg (fun hc => hc hrec)]
    case hmz =>
      rintro (h | h)
      · rcases hin.2.1 with hv | hv | hv <;> rw [hv] at h <;> exact absurd h (by decide)
      · rcases hin.2.2.1 with hv | hv | hv <;> rw [hv] at h <;> exact absurd h (by decide)
  have hds2' : (GptRecomputeSize (GptSanityCheck g0).2).2.drive_sectors < 2 ^ 64 := by
    rw [hds2, sanity_snd_drive_sectors]
    exact hds
  have hL1 : (GptRecomputeSize (GptSanityCheck g0).2).2.primary_entries.length ≤
      TOTAL_ENTRIES_SIZE := by
    rw [hlen1, sanity_snd_primary_entries]
    exact hl1
  have hL2 : (GptRecomputeSize (GptSanityCheck g0).2).2.secondary_entries.length ≤
      TOTAL_ENTRIES_SIZE := by
    rw [hlen2, sanity_snd_secondary_entries]
    exact hl2
  have hts := repairTail_spec _ hinv2 hds2' hL1 hL2
  rw [hrep]
  exact ⟨hts.1, hts.2.1, hts.2.2.1, hts.2.2.2.1, hts.2.2.2.2.1,
    hts.2.2.2.2.2.1, hts.2.2.2.2.2.2⟩

/-- The concrete primary header `hdrP` of `gptGood` is valid. -/
theorem hdrP_ok : CheckHeader hdrP false 100 = 0 :=
  (CheckHeader_characterization hdrP false 100 (by decide) (by decide)).mpr
    ⟨by decide, by decide, by decide, by decide, HeaderCrc_setHeaderCrc _,
     by decide, by decide, by decide, by decide, by decide, by decide,
     by decide, by decide, by decide⟩

/-- The concrete secondary header `hdrS` of `gptGood` is valid. -/
theorem hdrS_ok : CheckHeader hdrS true 100 = 0 :=
  (CheckHeader_characterization hdrS true 100 (by decide) (by decide)).mpr
    ⟨by decide, by decide, by decide, by decide, HeaderCrc_setHeaderCrc _,
     by decide, by decide, by decide, by decide, by decide, by decide,
     by decide, by decide, by decide⟩

/-- `hdrP` and `hdrS` agree on the ten compared fields. -/
theorem fieldsSame_hdrPS : HeaderFieldsSame hdrP hdrS = 0 := by
  have hec : hdrP.entries_crc32 = hdrS.entries_crc32 :=
    (show hdrP.entries_crc32 = crc32 table128 from rfl).trans
      (show hdrS.entries_crc32 = crc32 table128 from rfl).symm
  unfold HeaderFieldsSame
  rw [if_neg (fun hc => hc (by decide)), if_neg (fun hc => hc (by decide)),
      if_neg (fun hc => hc (by decide)), if_neg (fun hc => hc (by decide)),
      if_neg (fun hc => hc (by decide)), if_neg (fun hc => hc (by decide)),
      if_neg (fun hc => hc (by decide)), if_neg (fun hc => hc (by decide)),
      if_neg (fun hc => hc (by decide)), if_neg (fun hc => hc hec)]

/-- `table128` is self-consistent under `hdrP`. -/
theorem table128_ok : CheckEntries table128 hdrP = 0 := by
  rw [CheckEntries_eq_scan table128 hdrP (by
    rw [show table128.take (hdrP.size_of_entry * hdrP.number_of_entries % 2 ^ 32) =
      table128 from by decide]; rfl)]
  decide

/-- `GptSanityCheck` accepts `gptGood` with both masks `MASK_BOTH`. -/
theorem gptGood_sane :
    (GptSanityCheck gptGood).1 = GPT_SUCCESS ∧
    (GptSanityCheck gptGood).2.valid_headers = MASK_BOTH ∧
    (GptSanityCheck gptGood).2.valid_entries = MASK_BOTH :=
  sanity_allgood_spec gptGood (by decide) hdrP_ok hdrS_ok fieldsSame_hdrPS
    table128_ok table128_ok

/-- The geometry of `gptGood` is already current, so `GptRecomputeSize`
succeeds without rewriting. -/
theorem gptGood_rec : (GptRecomputeSize (GptSanityCheck gptGood).2).1 = GPT_SUCCESS := by
  have h1 : (GptSanityCheck gptGood).2.valid_headers &&& MASK_PRIMARY ≠ 0 := by
    rw [gptGood_sane.2.1]
    decide
  have h2 : (GptSanityCheck gptGood).2.primary_header.alternate_lba =
      sub64 (GptSanityCheck gptGood).2.drive_sectors 1 ∧
      (GptSanityCheck gptGood).2.primary_header.last_usable_lba =
        sub64 (sub64 (sub64 (GptSanityCheck gptGood).2.drive_sectors 1)
          GPT_ENTRIES_SECTORS) 1 := by
    rw [sanity_snd_primary_header, sanity_snd_drive_sectors]
    exact ⟨by decide, by decide⟩
  unfold GptRecomputeSize
  rw [if_pos h1, if_pos h2]

/-- C1 witness: the convergence theorem applied to the concrete valid image
`gptGood`. -/
theorem GptRepair_convergence_witness :
    (GptRepair (GptSanityCheck gptGood).2).valid_headers = MASK_BOTH ∧
    (GptRepair (GptSanityCheck gptGood).2).valid_entries = MASK_BOTH ∧
    (GptSanityCheck (GptRepair (GptSanityCheck gptGood).2)).1 = GPT_SUCCESS :=
  ⟨(GptRepair_convergence gptGood (by decide) (by decide) (by decide)
      gptGood_sane.1 gptGood_rec).1,
   (GptRepair_convergence gptGood (by decide) (by decide) (by decide)
      gptGood_sane.1 gptGood_rec).2.1,
   (GptRepair_convergence gptGood (by decide) (by decide) (by decide)
      gptGood_sane.1 gptGood_rec).2.2.2.2.1⟩

/-- The collision image's primary header is valid. -/
theorem hdrCP_ok : CheckHeader hdrCP false 100 = 0 :=
  (CheckHeader_characterization hdrCP false 100 (by decide) (by decide)).mpr
    ⟨by decide, by decide, by decide, by decide, HeaderCrc_setHeaderCrc _,
     by decide, by decide, by decide, by decide, by decide, by decide,
     by decide, by decide, by decide⟩

/-- The collision image's secondary header is valid. -/
theorem hdrCS_ok : CheckHeader hdrCS true 100 = 0 :=
  (CheckHeader_characterization hdrCS true 100 (by decide) (by decide)).mpr
    ⟨by decide, by decide, by decide, by decide, HeaderCrc_setHeaderCrc _,
     by decide, by decide, by decide, by decide, by decide, by decide,
     by decide, by decide, by decide⟩

/-- The two collision headers agree on the ten compared fields (their stored
entry CRCs are the same number by the CRC-append collision). -/
theorem fieldsSame_hdrC : HeaderFieldsSame hdrCP hdrCS = 0 := by decide

/-- `tableC1` passes under the primary collision header. -/
theorem tableC1_ok : CheckEntries tableC1 hdrCP = 0 := by
  rw [CheckEntries_eq_scan tableC1 hdrCP (by
    rw [show tableC1.take (hdrCP.size_of_entry * hdrCP.number_of_entries % 2 ^ 32) =
      tableC1 from by decide]; rfl)]
  decide

/-- `tableC2` also passes under the primary collision header: its CRC equals
`crc32 tableC1` although its bytes differ. -/
theorem tableC2_ok : CheckEntries tableC2 hdrCP = 0 := by
  rw [CheckEntries_eq_scan tableC2 hdrCP (by
    rw [show tableC2.take (hdrCP.size_of_entry * hdrCP.number_of_entries % 2 ^ 32) =
      tableC2 from by decide]; decide)]
  decide

/-- C1 counterexample: the CRC-collision image `gptCol` is fully valid
(sanity reports `MASK_BOTH`/`MASK_BOTH`), the geometry adaptation succeeds,
and `GptRepair` ends with both masks `MASK_BOTH` — yet the two entry buffers
are not byte-equal over `size_of_entry * number_of_entries` bytes, against
the original claim. -/
theorem GptRepair_convergence_counterexample :
    (GptSanityCheck gptCol).1 = GPT_SUCCESS ∧
    (GptSanityCheck gptCol).2.valid_headers = MASK_BOTH ∧
    (GptSanityCheck gptCol).2.valid_entries = MASK_BOTH ∧
    gptCol.valid_headers ≠ MASK_NONE ∧
    gptCol.valid_entries ≠ MASK_NONE ∧
    (GptRecomputeSize gptCol).1 = GPT_SUCCESS ∧
    (GptRepair gptCol).valid_headers = MASK_BOTH ∧
    (GptRepair gptCol).valid_entries = MASK_BOTH ∧
    (GptRepair gptCol).primary_entries.take (entriesSize (GptRepair gptCol)) ≠
      (GptRepair gptCol).secondary_entries.take (entriesSize (GptRepair gptCol)) := by
  have hs := sanity_allgood_spec gptCol (by decide) hdrCP_ok hdrCS_ok fieldsSame_hdrC
    tableC1_ok tableC2_ok
  exact ⟨hs.1, hs.2.1, hs.2.2, by decide, by decide, by decide, by decide,
    by decide, by decide⟩

/-- **C6.** CRC round-trip after modification, corrected: `gpt_modified`
recomputes the primary CRCs in place, sets the primary `modified` flags,
forces both masks to `MASK_PRIMARY` and runs the repair.  The claimed
success of a subsequent sanity check does not hold for every `GptData`
(see the counterexample); it holds when the rewritten primary copy is
actually valid — parameters sane, `CheckHeader` accepting the CRC-rewritten
primary header, `CheckEntries` accepting the primary table under it — and
the geometry adaptation succeeds: then a subsequent `GptSanityCheck` returns
`GPT_SUCCESS` with both masks `MASK_BOTH`. -/
theorem GptModified_roundtrip (g : GptData)
    (hds : g.drive_sectors < 2 ^ 64)
    (hl1 : g.primary_entries.length ≤ TOTAL_ENTRIES_SIZE)
    (hl2 : g.secondary_entries.length ≤ TOTAL_ENTRIES_SIZE)
    (hp : CheckParameters g = GPT_SUCCESS)
    (hh : CheckHeader (gptModifiedHeader g) false g.drive_sectors = 0)
    (he : CheckEntries g.primary_entries (gptModifiedHeader g) = 0)
    (hrec : (GptRecomputeSize (gptModifiedPre g)).1 = GPT_SUCCESS) :
    (GptSanityCheck (GptModified g)).1 = GPT_SUCCESS ∧
    (GptSanityCheck (GptModified g)).2.valid_headers = MASK_BOTH ∧
    (GptSanityCheck (GptModified g)).2.valid_entries = MASK_BOTH := by
  have hinv : Inv (gptModifiedPre g) :=
    ⟨hp, Or.inl rfl, Or.inl rfl, fun _ => hh, fun hne => absurd rfl hne,
     fun _ => he, fun hne => absurd rfl hne,
     fun h3 => absurd h3 (show (1 : Nat) ≠ 3 from by decide)⟩
  obtain ⟨hinv2, hds2, hlen1, hlen2, hvne, hhne⟩ := recompute_success_inv _ hinv hrec
  have hrep : GptModified g = GptRepairTail (GptRecomputeSize (gptModifiedPre g)).2 := by
    rw [GptModified_eq_repair]
    unfold GptRepair
    rw [if_neg (fun hc => hc.elim (fun h => Nat.one_ne_zero h) (fun h => Nat.one_ne_zero h)),
        if_neg (fun hc => hc hrec)]
  have hds2' : (GptRecomputeSize (gptModifiedPre g)).2.drive_sectors < 2 ^ 64 := by
    rw [hds2]
    exact hds
  have hL1 : (GptRecomputeSize (gptModifiedPre g)).2.primary_entries.length ≤
      TOTAL_ENTRIES_SIZE := by
    rw [hlen1]
    exact hl1
  have hL2 : (GptRecomputeSize (gptModifiedPre g)).2.secondary_entries.length ≤
      TOTAL_ENTRIES_SIZE := by
    rw [hlen2]
    exact hl2
  have hts := repairTail_spec _ hinv2 hds2' hL1 hL2
  rw [hrep]
  exact ⟨hts.2.2.2.2.1, hts.2.2.2.2.2.1, hts.2.2.2.2.2.2⟩

/-- The CRC-rewritten primary header of `gptGood` is still valid (the
rewrite stores the same entry CRC and a recomputed header CRC). -/
theorem gmHdr_ok : CheckHeader (gptModifiedHeader gptGood) false 100 = 0 :=
  (CheckHeader_characterization (gptModifiedHeader gptGood) false 100
      (by decide) (by decide)).mpr
    ⟨by decide, by decide, by decide, by decide, HeaderCrc_setHeaderCrc _,
     by decide, by decide, by decide, by decide, by decide, by decide,
     by decide, by decide, by decide⟩

/-- `table128` passes under the CRC-rewritten primary header of `gptGood`. -/
theorem gmEntries_ok : CheckEntries table128 (gptModifiedHeader gptGood) = 0 := by
  have hcrc : crc32 (table128.take ((gptModifiedHeader gptGood).size_of_entry *
      (gptModifiedHeader gptGood).number_of_entries % 2 ^ 32)) =
      (gptModifiedHeader gptGood).entries_crc32 := by
    rw [show table128.take ((gptModifiedHeader gptGood).size_of_entry *
      (gptModifiedHeader gptGood).number_of_entries % 2 ^ 32) = table128 from by decide]
    show crc32 table128 = crc32 (gptGood.primary_entries.take
      (gptGood.primary_header.size_of_entry * gptGood.primary_header.number_of_entries % 2 ^ 32))
    rw [show gptGood.primary_entries.take (gptGood.primary_header.size_of_entry *
      gptGood.primary_header.number_of_entries % 2 ^ 32) = table128 from by decide]
  rw [CheckEntries_eq_scan table128 (gptModifiedHeader gptGood) hcrc]
  decide

/-- C6 witness: the round-trip theorem applied to the concrete valid image
`gptGood`. -/
theorem GptModified_roundtrip_witness :
    (GptSanityCheck (GptModified gptGood)).1 = GPT_SUCCESS ∧
    (GptSanityCheck (GptModified gptGood)).2.valid_headers = MASK_BOTH ∧
    (GptSanityCheck (GptModified gptGood)).2.valid_entries = MASK_BOTH :=
  GptModified_roundtrip gptGood (by decide) (by decide) (by decide) (by decide)
    gmHdr_ok gmEntries_ok (by decide)

/-- C6 counterexample: on the blank image `GptModified` cannot repair
anything, and the subsequent sanity check reports invalid headers, not
`GPT_SUCCESS`. -/
theorem GptModified_roundtrip_counterexample :
    (GptSanityCheck (GptModified gptZero)).1 = GPT_ERROR_INVALID_HEADERS ∧
    (GptSanityCheck (GptModified gptZero)).1 ≠ GPT_SUCCESS := by
  decide
